import Mathlib

/-!
# go-robocopy: option model and argument serialization

A shallow embedding of the Go package `gorobocopy` and its `flags` sub-packages.

* `uint16` flag values are natural numbers; where the 16-bit width matters
  (the complement in `flags.Clear`) the reduction modulo `2 ^ 16` is explicit.
* Go `int` fields are integers; the serializer only compares them with zero
  and prints them in decimal, so no arithmetic can overflow.
* A Go `[]string` (nil or not) is a `List String`; `append` is list append.
* A pointer to an option group that may be `nil` is an `Option`.
* A struct literal with omitted fields is the structure instance `{ .. }`
  with the Go zero value as the default of every field.
-/

/-! ## Package `flags` -/

namespace flags

/-- Go: `func Has[T ~uint16](flag, other T) bool { return (flag & other) != 0 }`. -/
def Has (flag other : Nat) : Bool := (flag &&& other) != 0

/-- Go: `*flag |= other`; the updated value of `*flag` is returned. -/
def Set (flag other : Nat) : Nat := flag ||| other

/-- Go: `*flag &= ^other`; `^other` is the complement within 16 bits. -/
def Clear (flag other : Nat) : Nat := flag &&& ((2 ^ 16 - 1 - other % 2 ^ 16) % 2 ^ 16)

/-- Go: `*flag ^= other`; the updated value of `*flag` is returned. -/
def Toggle (flag other : Nat) : Nat := flag ^^^ other

end flags

/-! ## Package `flags/copyflags` -/

namespace copyflags

/-- Go: `type CopyFlags flags.Flag` (a `uint16`). -/
abbrev CopyFlags := Nat

def D : CopyFlags := 1 <<< 0
def A : CopyFlags := 1 <<< 1
def T : CopyFlags := 1 <<< 2
def X : CopyFlags := 1 <<< 3
def S : CopyFlags := 1 <<< 4
def O : CopyFlags := 1 <<< 5
def U : CopyFlags := 1 <<< 6
def Default : CopyFlags := D ||| A ||| T

/-- Go: `func (flag CopyFlags) String() string`; the `strings.Builder` is the
accumulated string `r`. -/
def CopyFlags.String (flag : CopyFlags) : String :=
  let r := ""
  let r := if flags.Has flag D then r ++ "D" else r
  let r := if flags.Has flag A then r ++ "A" else r
  let r := if flags.Has flag T then r ++ "T" else r
  let r := if flags.Has flag X then r ++ "X" else r
  let r := if flags.Has flag S then r ++ "S" else r
  let r := if flags.Has flag O then r ++ "O" else r
  let r := if flags.Has flag U then r ++ "U" else r
  r

end copyflags

/-! ## Package `flags/dcopyflags` -/

namespace dcopyflags

/-- Go: `type DCopyFlags flags.Flag` (a `uint16`). -/
abbrev DCopyFlags := Nat

def D : DCopyFlags := 1 <<< 0
def A : DCopyFlags := 1 <<< 1
def T : DCopyFlags := 1 <<< 2
def E : DCopyFlags := 1 <<< 3
def X : DCopyFlags := 1 <<< 4
def Default : DCopyFlags := D ||| A

/-- Go: `func (flag DCopyFlags) String() string`. -/
def DCopyFlags.String (flag : DCopyFlags) : String :=
  let r := ""
  let r := if flags.Has flag D then r ++ "D" else r
  let r := if flags.Has flag A then r ++ "A" else r
  let r := if flags.Has flag T then r ++ "T" else r
  let r := if flags.Has flag E then r ++ "E" else r
  let r := if flags.Has flag X then r ++ "X" else r
  r

end dcopyflags

/-! ## Package `flags/aflags` -/

namespace aflags

/-- Go: `type AFlags flags.Flag` (a `uint16`). -/
abbrev AFlags := Nat

def R : AFlags := 1 <<< 0
def A : AFlags := 1 <<< 1
def S : AFlags := 1 <<< 2
def H : AFlags := 1 <<< 3
def C : AFlags := 1 <<< 4
def N : AFlags := 1 <<< 5
def E : AFlags := 1 <<< 6
def T : AFlags := 1 <<< 7
def O : AFlags := 1 <<< 8

/-- Go: `func (flag AFlags) String() string`. -/
def AFlags.String (flag : AFlags) : String :=
  let r := ""
  let r := if flags.Has flag R then r ++ "R" else r
  let r := if flags.Has flag A then r ++ "A" else r
  let r := if flags.Has flag S then r ++ "S" else r
  let r := if flags.Has flag H then r ++ "H" else r
  let r := if flags.Has flag C then r ++ "C" else r
  let r := if flags.Has flag N then r ++ "N" else r
  let r := if flags.Has flag E then r ++ "E" else r
  let r := if flags.Has flag T then r ++ "T" else r
  let r := if flags.Has flag O then r ++ "O" else r
  r

end aflags

/-! ## Package `flags/unitflags` -/

namespace unitflags

/-- Go: `type UnitFlags flags.Flag` (a `uint16`). -/
abbrev UnitFlags := Nat

def Kilobytes : UnitFlags := 1 <<< 0
def Megabytes : UnitFlags := 1 <<< 1
def Gigabytes : UnitFlags := 1 <<< 2

/-- Go: `func (c UnitFlags) String() string`. -/
def UnitFlags.String (c : UnitFlags) : String :=
  if c = Kilobytes then "k"
  else if c = Megabytes then "m"
  else "g"

end unitflags

/-! ## Library functions used by the serializer -/

/-- Go: `strconv.Itoa`, the base-10 text of an `int`, with a leading `-` for a
negative value. -/
def Itoa (i : Int) : String :=
  if i < 0 then "-" ++ Nat.repr i.natAbs else Nat.repr i.natAbs

/-- Modelled from the spec: `types.Pair`, whose declaration is not among the
sources. The spec calls it a sized quantity, "a pair of (integer magnitude,
unit-of-size flag)"; the serializer reads its components as `First` and
`Second`. -/
structure Pair where
  First : Int := 0
  Second : unitflags.UnitFlags := 0
deriving DecidableEq, Repr

/-- Go: `reflect.ValueOf(p).IsZero()` for a struct value: every field is zero. -/
def Pair.IsZero (p : Pair) : Bool := p.First == 0 && p.Second == 0

/-! ## Package `gorobocopy`: option groups -/

/-- Go: `type CopyOptions struct`; every field defaults to its Go zero value. -/
structure CopyOptions where
  S : Bool := false
  E : Bool := false
  Lev : Int := 0
  Z : Bool := false
  B : Bool := false
  Zb : Bool := false
  J : Bool := false
  EsfRaw : Bool := false
  Copy : copyflags.CopyFlags := 0
  Dcopy : dcopyflags.DCopyFlags := 0
  Sec : Bool := false
  CopyAll : Bool := false
  NoCopy : Bool := false
  SecFix : Bool := false
  TimFix : Bool := false
  Purge : Bool := false
  Mir : Bool := false
  Mov : Bool := false
  Move : Bool := false
  APlus : aflags.AFlags := 0
  AMinus : aflags.AFlags := 0
  Create : Bool := false
  Fat : Bool := false
  NoMoreThan256 : Bool := false
  Mon : Int := 0
  Mot : Int := 0
  Rh : String := ""
  Pf : Bool := false
  Ipg : Int := 0
  Sj : Bool := false
  Sl : Bool := false
  Mt : Int := 0
  Nodcopy : Bool := false
  Nooffload : Bool := false
  Compress : Bool := false
  Sparse : Bool := false

/-- Go: `func (c *CopyOptions) getCommandArgs() (result []string)`. -/
def CopyOptions.getCommandArgs (c : CopyOptions) : List String :=
  let result : List String := []
  let result := if c.S then result ++ ["/s"] else result
  let result := if c.E then result ++ ["/e"] else result
  let result := if c.Lev ≠ 0 then result ++ ["/lev:" ++ Itoa c.Lev] else result
  let result := if c.Z then result ++ ["/z"] else result
  let result := if c.B then result ++ ["/b"] else result
  let result := if c.Zb then result ++ ["/zb"] else result
  let result := if c.J then result ++ ["/j"] else result
  let result := if c.EsfRaw then result ++ ["/efsraw"] else result
  let result := if c.Copy ≠ 0 then result ++ ["/copy:" ++ copyflags.CopyFlags.String c.Copy] else result
  let result := if c.Dcopy ≠ 0 then result ++ ["/dcopy:" ++ dcopyflags.DCopyFlags.String c.Dcopy] else result
  let result := if c.Sec then result ++ ["/sec"] else result
  let result := if c.CopyAll then result ++ ["/copyall"] else result
  let result := if c.NoCopy then result ++ ["/nocopy"] else result
  let result := if c.SecFix then result ++ ["/secfix"] else result
  let result := if c.TimFix then result ++ ["/timfix"] else result
  let result := if c.Purge then result ++ ["/purge"] else result
  let result := if c.Mir then result ++ ["/mir"] else result
  let result := if c.Mov then result ++ ["/mov"] else result
  let result := if c.Move then result ++ ["/move"] else result
  let result := if c.APlus ≠ 0 then result ++ ["/a+:" ++ aflags.AFlags.String c.APlus] else result
  let result := if c.AMinus ≠ 0 then result ++ ["/a-:" ++ aflags.AFlags.String c.AMinus] else result
  let result := if c.Create then result ++ ["/create"] else result
  let result := if c.Fat then result ++ ["/fat"] else result
  let result := if c.NoMoreThan256 then result ++ ["/256"] else result
  let result := if c.Mon ≠ 0 then result ++ ["/mon:" ++ Itoa c.Mon] else result
  let result := if c.Mot ≠ 0 then result ++ ["/mot:" ++ Itoa c.Mot] else result
  let result := if c.Rh ≠ "" then result ++ ["/rh:" ++ c.Rh] else result
  let result := if c.Pf then result ++ ["/pf"] else result
  let result := if c.Ipg ≠ 0 then result ++ ["/ipg:" ++ Itoa c.Ipg] else result
  let result := if c.Sj then result ++ ["/sj"] else result
  let result := if c.Sl then result ++ ["/sl"] else result
  let result := if c.Mt ≠ 0 then result ++ ["/mt:" ++ Itoa c.Mt] else result
  let result := if c.Nodcopy then result ++ ["/nodcopy"] else result
  let result := if c.Nooffload then result ++ ["/nooffload"] else result
  let result := if c.Compress then result ++ ["/compress"] else result
  let result := if c.Sparse then result ++ ["/sparse"] else result
  result

/-- Go: `type CopyFileThrottlingOptions struct`; every field defaults to its Go zero value. -/
structure CopyFileThrottlingOptions where
  Iomaxsize : Pair := {}
  Iorate : Pair := {}
  Threshold : Pair := {}

/-- Go: `func (cfto *CopyFileThrottlingOptions) getCommandArgs() (result []string)`. -/
def CopyFileThrottlingOptions.getCommandArgs (cfto : CopyFileThrottlingOptions) : List String :=
  let result : List String := []
  let result := if !(cfto.Iomaxsize).IsZero then result ++ ["/iomaxsize:" ++ Itoa cfto.Iomaxsize.First ++ unitflags.UnitFlags.String cfto.Iomaxsize.Second] else result
  let result := if !(cfto.Iorate).IsZero then result ++ ["/iorate:" ++ Itoa cfto.Iorate.First ++ unitflags.UnitFlags.String cfto.Iorate.Second] else result
  let result := if !(cfto.Threshold).IsZero then result ++ ["/threshold:" ++ Itoa cfto.Threshold.First ++ unitflags.UnitFlags.String cfto.Threshold.Second] else result
  result

/-- Go: `type FileSelectionOptions struct`; every field defaults to its Go zero value. -/
structure FileSelectionOptions where
  A : Bool := false
  M : Bool := false
  Ia : aflags.AFlags := 0
  Xa : aflags.AFlags := 0
  Xf : List String := []
  Xd : List String := []
  Xc : Bool := false
  Xn : Bool := false
  Xo : Bool := false
  Xx : Bool := false
  Xl : Bool := false
  Im : Bool := false
  Is : Bool := false
  It : Bool := false
  Max : Int := 0
  Min : Int := 0
  Maxage : Int := 0
  Minage : Int := 0
  Maxlad : Int := 0
  Minlad : Int := 0
  Xj : Bool := false
  Fft : Bool := false
  Dst : Bool := false
  Xjd : Bool := false
  Xjf : Bool := false

/-- Go: `func (fso *FileSelectionOptions) getCommandArgs() (result []string)`. -/
def FileSelectionOptions.getCommandArgs (fso : FileSelectionOptions) : List String :=
  let result : List String := []
  let result := if fso.A then result ++ ["/a"] else result
  let result := if fso.M then result ++ ["/m"] else result
  let result := if fso.Ia ≠ 0 then result ++ ["/ia:" ++ aflags.AFlags.String fso.Ia] else result
  let result := if fso.Xa ≠ 0 then result ++ ["/xa:" ++ aflags.AFlags.String fso.Xa] else result
  let result := if (fso.Xf).length ≠ 0 then result ++ ["/xf"] ++ fso.Xf else result
  let result := if (fso.Xd).length ≠ 0 then result ++ ["/xd"] ++ fso.Xd else result
  let result := if fso.Xc then result ++ ["/xc"] else result
  let result := if fso.Xn then result ++ ["/xn"] else result
  let result := if fso.Xo then result ++ ["/xo"] else result
  let result := if fso.Xx then result ++ ["/xx"] else result
  let result := if fso.Xl then result ++ ["/xl"] else result
  let result := if fso.Im then result ++ ["/im"] else result
  let result := if fso.Is then result ++ ["/is"] else result
  let result := if fso.It then result ++ ["/it"] else result
  let result := if fso.Max ≠ 0 then result ++ ["/max:" ++ Itoa fso.Max] else result
  let result := if fso.Min ≠ 0 then result ++ ["/min:" ++ Itoa fso.Min] else result
  let result := if fso.Maxage ≠ 0 then result ++ ["/maxage:" ++ Itoa fso.Maxage] else result
  let result := if fso.Minage ≠ 0 then result ++ ["/minage:" ++ Itoa fso.Minage] else result
  let result := if fso.Maxlad ≠ 0 then result ++ ["/maxlad:" ++ Itoa fso.Maxlad] else result
  let result := if fso.Minlad ≠ 0 then result ++ ["/minlad:" ++ Itoa fso.Minlad] else result
  let result := if fso.Xj then result ++ ["/xj"] else result
  let result := if fso.Fft then result ++ ["/fft"] else result
  let result := if fso.Dst then result ++ ["/dst"] else result
  let result := if fso.Xjd then result ++ ["/xjd"] else result
  let result := if fso.Xjf then result ++ ["/xjf"] else result
  result

/-- Go: `type RetryOptions struct`; every field defaults to its Go zero value. -/
structure RetryOptions where
  R : Int := 0
  W : Int := 0
  Reg : Bool := false
  Tbd : Bool := false
  Lfsm : Bool := false
  LfsmSize : Pair := {}

/-- Go: `func (ropt *RetryOptions) getCommandArgs() (result []string)`. -/
def RetryOptions.getCommandArgs (ropt : RetryOptions) : List String :=
  let result : List String := []
  let result := if ropt.R ≠ 0 then result ++ ["/r:" ++ Itoa ropt.R] else result
  let result := if ropt.W ≠ 0 then result ++ ["/w:" ++ Itoa ropt.W] else result
  let result := if ropt.Reg then result ++ ["/reg"] else result
  let result := if ropt.Tbd then result ++ ["/tbd"] else result
  let result := if ropt.Lfsm then result ++ ["/lfsm"] else result
  let result := if !(ropt.LfsmSize).IsZero then result ++ ["/lfsm:" ++ Itoa ropt.LfsmSize.First ++ unitflags.UnitFlags.String ropt.LfsmSize.Second] else result
  result

/-- Go: `type LoggingOptions struct`; every field defaults to its Go zero value. -/
structure LoggingOptions where
  L : Bool := false
  X : Bool := false
  V : Bool := false
  Ts : Bool := false
  Fp : Bool := false
  Bytes : Bool := false
  Ns : Bool := false
  Nc : Bool := false
  Nfl : Bool := false
  Ndl : Bool := false
  Np : Bool := false
  Eta : Bool := false
  Log : String := ""
  LogPlus : String := ""
  UniLog : String := ""
  UniLogPlus : String := ""
  Tee : Bool := false
  Njh : Bool := false
  Njs : Bool := false
  Unicode : Bool := false

/-- Go: `func (lopt *LoggingOptions) getCommandArgs() (result []string)`. -/
def LoggingOptions.getCommandArgs (lopt : LoggingOptions) : List String :=
  let result : List String := []
  let result := if lopt.L then result ++ ["/l"] else result
  let result := if lopt.X then result ++ ["/x"] else result
  let result := if lopt.V then result ++ ["/v"] else result
  let result := if lopt.Ts then result ++ ["/ts"] else result
  let result := if lopt.Fp then result ++ ["/fp"] else result
  let result := if lopt.Bytes then result ++ ["/bytes"] else result
  let result := if lopt.Ns then result ++ ["/ns"] else result
  let result := if lopt.Nc then result ++ ["/nc"] else result
  let result := if lopt.Nfl then result ++ ["/nfl"] else result
  let result := if lopt.Ndl then result ++ ["/ndl"] else result
  let result := if lopt.Np then result ++ ["/np"] else result
  let result := if lopt.Eta then result ++ ["/eta"] else result
  let result := if lopt.Log ≠ "" then result ++ ["/log:" ++ lopt.Log] else result
  let result := if lopt.LogPlus ≠ "" then result ++ ["/log+:" ++ lopt.LogPlus] else result
  let result := if lopt.UniLog ≠ "" then result ++ ["/unilog:" ++ lopt.UniLog] else result
  let result := if lopt.UniLogPlus ≠ "" then result ++ ["/unilog+:" ++ lopt.UniLogPlus] else result
  let result := if lopt.Tee then result ++ ["/tee"] else result
  let result := if lopt.Njh then result ++ ["/njh"] else result
  let result := if lopt.Njs then result ++ ["/njs"] else result
  let result := if lopt.Unicode then result ++ ["/unicode"] else result
  result

/-- Go: `type JobOptions struct`; every field defaults to its Go zero value. -/
structure JobOptions where
  Job : String := ""
  Save : String := ""
  Quit : Bool := false
  Nosd : Bool := false
  Nodd : Bool := false
  If : Bool := false

/-- Go: `func (jopt *JobOptions) getCommandArgs() (result []string)`. -/
def JobOptions.getCommandArgs (jopt : JobOptions) : List String :=
  let result : List String := []
  let result := if jopt.Job ≠ "" then result ++ ["/job:" ++ jopt.Job] else result
  let result := if jopt.Quit then result ++ ["/quit"] else result
  let result := if jopt.Nosd then result ++ ["/nosd"] else result
  let result := if jopt.Nodd then result ++ ["/nodd"] else result
  let result := if jopt.If then result ++ ["/if"] else result
  let result := if jopt.Save ≠ "" then result ++ ["/save:" ++ jopt.Save] else result
  result
/-! ## Package `gorobocopy`: command descriptor -/

/-- Go: `type ExitCode int`. -/
abbrev ExitCode := Int

def AlreadyExist : ExitCode := 0
def AllFilesCopied : ExitCode := 1
def AdditionalFilesOnDest : ExitCode := 2
def SomeFilesCopied : ExitCode := 3
def SomeFilesMismatched : ExitCode := 5
def AdditionalAndMismatchedFiles : ExitCode := 6
def FilesCopiedMismatchedAndAdditional : ExitCode := 7
def SeveralFilesDidntCopy : ExitCode := 8

/-- Go: `type Robocopy struct`; a `nil` group pointer is `none`. -/
structure Robocopy where
  source : String := ""
  destination : String := ""
  file : String := ""
  copyOpt : Option CopyOptions := none
  throttlingOpt : Option CopyFileThrottlingOptions := none
  fileslOpt : Option FileSelectionOptions := none
  retryOpt : Option RetryOptions := none
  loggingOpt : Option LoggingOptions := none
  jobOpt : Option JobOptions := none
  exitCode : ExitCode := 0

/-- Go: `func NewRobocopy(sourceDir, destinationDir, file string) *Robocopy`. -/
def NewRobocopy (sourceDir destinationDir file : String) : Robocopy :=
  { source := sourceDir, destination := destinationDir, file := file }

/-- Go: `func (r *Robocopy) SetCopyOptions(opts *CopyOptions)`. -/
def Robocopy.SetCopyOptions (r : Robocopy) (opts : Option CopyOptions) : Robocopy :=
  { r with copyOpt := opts }

/-- Go: `func (r *Robocopy) SetThrottlingOptions(opts *CopyFileThrottlingOptions)`. -/
def Robocopy.SetThrottlingOptions (r : Robocopy)
    (opts : Option CopyFileThrottlingOptions) : Robocopy :=
  { r with throttlingOpt := opts }

/-- Go: `func (r *Robocopy) SetFileSelectionOptions(opts *FileSelectionOptions)`. -/
def Robocopy.SetFileSelectionOptions (r : Robocopy)
    (opts : Option FileSelectionOptions) : Robocopy :=
  { r with fileslOpt := opts }

/-- Go: `func (r *Robocopy) SetRetryOptions(opts *RetryOptions)`. -/
def Robocopy.SetRetryOptions (r : Robocopy) (opts : Option RetryOptions) : Robocopy :=
  { r with retryOpt := opts }

/-- Go: `func (r *Robocopy) SetLoggingOptions(opts *LoggingOptions)`. -/
def Robocopy.SetLoggingOptions (r : Robocopy) (opts : Option LoggingOptions) : Robocopy :=
  { r with loggingOpt := opts }

/-- Go: `func (r *Robocopy) SetJobOptions(opts *JobOptions)`. -/
def Robocopy.SetJobOptions (r : Robocopy) (opts : Option JobOptions) : Robocopy :=
  { r with jobOpt := opts }

/-- Go: `func (r *Robocopy) GetCommandArgs() (command []string)`. -/
def Robocopy.GetCommandArgs (r : Robocopy) : List String :=
  let command : List String := []
  let command := command ++ [r.source]
  let command := command ++ [r.destination]
  let command := command ++ [r.file]
  let command := match r.copyOpt with
    | some o => command ++ o.getCommandArgs
    | none => command
  let command := match r.throttlingOpt with
    | some o => command ++ o.getCommandArgs
    | none => command
  let command := match r.fileslOpt with
    | some o => command ++ o.getCommandArgs
    | none => command
  let command := match r.retryOpt with
    | some o => command ++ o.getCommandArgs
    | none => command
  let command := match r.loggingOpt with
    | some o => command ++ o.getCommandArgs
    | none => command
  let command := match r.jobOpt with
    | some o => command ++ o.getCommandArgs
    | none => command
  command

/-- Go: `func (r *Robocopy) GetExitCode() ExitCode`. -/
def Robocopy.GetExitCode (r : Robocopy) : ExitCode := r.exitCode

/-- Go: `func (r *Robocopy) Run(stdin io.Reader, stdout, stderr io.Writer)`. The
subprocess is outside the model: the exit status it ends with,
`cmd.ProcessState.ExitCode()`, is the argument `status`, and `Run` stores it in
`exitCode`. -/
def Robocopy.Run (r : Robocopy) (status : Int) : Robocopy :=
  { r with exitCode := status }

/-- Go: `func (e ExitCode) String() string`. -/
def ExitCode.String (e : ExitCode) : String :=
  if e = AlreadyExist then
    "No files were copied. No failure was encountered. No files were mismatched. The files already exist in the destination directory; therefore, the copy operation was skipped."
  else if e = AllFilesCopied then
    "All files were copied successfully."
  else if e = AdditionalFilesOnDest then
    "There are some additional files in the destination directory that aren't present in the source directory. No files were copied."
  else if e = SomeFilesCopied then
    "Some files were copied. Additional files were present. No failure was encountered."
  else if e = SomeFilesMismatched then
    "Some files were copied. Some files were mismatched. No failure was encountered."
  else if e = AdditionalAndMismatchedFiles then
    "Additional files and mismatched files exist. No files were copied and no failures were encountered meaning that the files already exist in the destination directory."
  else if e = FilesCopiedMismatchedAndAdditional then
    "Files were copied, a file mismatch was present, and additional files were present."
  else if e = SeveralFilesDidntCopy then
    "Several files didn't copy."
  else
    "Unknown exit code"

/-! ## Specification-side vocabulary -/

/-- The tokens a group reference contributes to the argument list: those of the
group when one is attached, none for a `nil` reference. -/
def attachedTokens {α : Type} (render : α → List String) : Option α → List String
  | some g => render g
  | none => []

/-- `occursBefore a b l`: some occurrence of the token `a` in `l` is followed,
later in `l`, by an occurrence of the token `b`. -/
def occursBefore (a b : String) : List String → Bool
  | [] => false
  | x :: xs => (decide (x = a) && decide (b ∈ xs)) || occursBefore a b xs

/-- `beginsWith p l`: the character list `l` starts with the characters of `p`. -/
def beginsWith : List Char → List Char → Bool
  | [], _ => true
  | _ :: _, [] => false
  | a :: as, b :: bs => a == b && beginsWith as bs

/-- `hasSwitch sw tok`: the token `tok` starts with the switch text `sw`. -/
def hasSwitch (sw tok : String) : Bool := beginsWith sw.data tok.data

/-- The rendering the spec asks of a flag group: visit the declared
(bit value, letter) pairs in order and concatenate the letter of every pair
whose bit is set in `f`; a pair whose bit is unset contributes nothing. -/
def renderInOrder (table : List (Nat × String)) (f : Nat) : String :=
  String.join (table.map (fun e => if f &&& e.1 = e.1 then e.2 else ""))

/-- The union of the declared bits whose letter `renderInOrder table f` emits.
It equals `f` exactly when the emitted letters account for every set bit of `f`. -/
def lettersToBits (table : List (Nat × String)) (f : Nat) : Nat :=
  ((table.filter (fun e => f &&& e.1 = e.1)).map Prod.fst).foldl (fun acc m => acc ||| m) 0

/-- The declared (bit value, letter) pairs of `CopyFlags`, in declaration order. -/
def copyflags.letters : List (copyflags.CopyFlags × String) :=
  [(copyflags.D, "D"), (copyflags.A, "A"), (copyflags.T, "T"), (copyflags.X, "X"),
   (copyflags.S, "S"), (copyflags.O, "O"), (copyflags.U, "U")]

/-- The declared (bit value, letter) pairs of `DCopyFlags`, in declaration order. -/
def dcopyflags.letters : List (dcopyflags.DCopyFlags × String) :=
  [(dcopyflags.D, "D"), (dcopyflags.A, "A"), (dcopyflags.T, "T"), (dcopyflags.E, "E"),
   (dcopyflags.X, "X")]

/-- The declared (bit value, letter) pairs of `AFlags`, in declaration order. -/
def aflags.letters : List (aflags.AFlags × String) :=
  [(aflags.R, "R"), (aflags.A, "A"), (aflags.S, "S"), (aflags.H, "H"), (aflags.C, "C"),
   (aflags.N, "N"), (aflags.E, "E"), (aflags.T, "T"), (aflags.O, "O")]

/-- `EmitsInOrder render table`: the serializer `render` emits, for every value,
the token contributions of the fields listed in `table`, in the order of the
table; so whenever two fields both contribute, every token of the field
listed earlier occurs before every token of the field listed later. -/
def EmitsInOrder {G : Type} (render : G → List String) (table : List (G → List String)) : Prop :=
  (∀ c : G, render c = (table.map (fun f => f c)).flatten)
    ∧ ∀ (c : G) (i j : Nat) (fi fj : G → List String),
        i < j → table[i]? = some fi → table[j]? = some fj →
          ∀ a ∈ fi c, ∀ b ∈ fj c, occursBefore a b (render c) = true

/-- The token contribution of every field of `CopyOptions`, listed in the order in
which the fields are declared in the record. -/
def CopyOptions.declaredOrder : List (CopyOptions → List String) :=
  [(fun c => if c.S then ["/s"] else []),
   (fun c => if c.E then ["/e"] else []),
   (fun c => if c.Lev ≠ 0 then ["/lev:" ++ Itoa c.Lev] else []),
   (fun c => if c.Z then ["/z"] else []),
   (fun c => if c.B then ["/b"] else []),
   (fun c => if c.Zb then ["/zb"] else []),
   (fun c => if c.J then ["/j"] else []),
   (fun c => if c.EsfRaw then ["/efsraw"] else []),
   (fun c => if c.Copy ≠ 0 then ["/copy:" ++ copyflags.CopyFlags.String c.Copy] else []),
   (fun c => if c.Dcopy ≠ 0 then ["/dcopy:" ++ dcopyflags.DCopyFlags.String c.Dcopy] else []),
   (fun c => if c.Sec then ["/sec"] else []),
   (fun c => if c.CopyAll then ["/copyall"] else []),
   (fun c => if c.NoCopy then ["/nocopy"] else []),
   (fun c => if c.SecFix then ["/secfix"] else []),
   (fun c => if c.TimFix then ["/timfix"] else []),
   (fun c => if c.Purge then ["/purge"] else []),
   (fun c => if c.Mir then ["/mir"] else []),
   (fun c => if c.Mov then ["/mov"] else []),
   (fun c => if c.Move then ["/move"] else []),
   (fun c => if c.APlus ≠ 0 then ["/a+:" ++ aflags.AFlags.String c.APlus] else []),
   (fun c => if c.AMinus ≠ 0 then ["/a-:" ++ aflags.AFlags.String c.AMinus] else []),
   (fun c => if c.Create then ["/create"] else []),
   (fun c => if c.Fat then ["/fat"] else []),
   (fun c => if c.NoMoreThan256 then ["/256"] else []),
   (fun c => if c.Mon ≠ 0 then ["/mon:" ++ Itoa c.Mon] else []),
   (fun c => if c.Mot ≠ 0 then ["/mot:" ++ Itoa c.Mot] else []),
   (fun c => if c.Rh ≠ "" then ["/rh:" ++ c.Rh] else []),
   (fun c => if c.Pf then ["/pf"] else []),
   (fun c => if c.Ipg ≠ 0 then ["/ipg:" ++ Itoa c.Ipg] else []),
   (fun c => if c.Sj then ["/sj"] else []),
   (fun c => if c.Sl then ["/sl"] else []),
   (fun c => if c.Mt ≠ 0 then ["/mt:" ++ Itoa c.Mt] else []),
   (fun c => if c.Nodcopy then ["/nodcopy"] else []),
   (fun c => if c.Nooffload then ["/nooffload"] else []),
   (fun c => if c.Compress then ["/compress"] else []),
   (fun c => if c.Sparse then ["/sparse"] else [])]

/-- The token contribution of every field of `CopyFileThrottlingOptions`, listed in the order in
which the fields are declared in the record (`Iomaxsize`, `Iorate`, `Threshold`). -/
def CopyFileThrottlingOptions.declaredOrder : List (CopyFileThrottlingOptions → List String) :=
  [(fun cfto => if !(cfto.Iomaxsize).IsZero then ["/iomaxsize:" ++ Itoa cfto.Iomaxsize.First ++ unitflags.UnitFlags.String cfto.Iomaxsize.Second] else []),
   (fun cfto => if !(cfto.Iorate).IsZero then ["/iorate:" ++ Itoa cfto.Iorate.First ++ unitflags.UnitFlags.String cfto.Iorate.Second] else []),
   (fun cfto => if !(cfto.Threshold).IsZero then ["/threshold:" ++ Itoa cfto.Threshold.First ++ unitflags.UnitFlags.String cfto.Threshold.Second] else [])]

/-- The token contribution of every field of `FileSelectionOptions`, listed in the order in
which the fields are declared in the record. -/
def FileSelectionOptions.declaredOrder : List (FileSelectionOptions → List String) :=
  [(fun fso => if fso.A then ["/a"] else []),
   (fun fso => if fso.M then ["/m"] else []),
   (fun fso => if fso.Ia ≠ 0 then ["/ia:" ++ aflags.AFlags.String fso.Ia] else []),
   (fun fso => if fso.Xa ≠ 0 then ["/xa:" ++ aflags.AFlags.String fso.Xa] else []),
   (fun fso => if (fso.Xf).length ≠ 0 then ["/xf"] ++ fso.Xf else []),
   (fun fso => if (fso.Xd).length ≠ 0 then ["/xd"] ++ fso.Xd else []),
   (fun fso => if fso.Xc then ["/xc"] else []),
   (fun fso => if fso.Xn then ["/xn"] else []),
   (fun fso => if fso.Xo then ["/xo"] else []),
   (fun fso => if fso.Xx then ["/xx"] else []),
   (fun fso => if fso.Xl then ["/xl"] else []),
   (fun fso => if fso.Im then ["/im"] else []),
   (fun fso => if fso.Is then ["/is"] else []),
   (fun fso => if fso.It then ["/it"] else []),
   (fun fso => if fso.Max ≠ 0 then ["/max:" ++ Itoa fso.Max] else []),
   (fun fso => if fso.Min ≠ 0 then ["/min:" ++ Itoa fso.Min] else []),
   (fun fso => if fso.Maxage ≠ 0 then ["/maxage:" ++ Itoa fso.Maxage] else []),
   (fun fso => if fso.Minage ≠ 0 then ["/minage:" ++ Itoa fso.Minage] else []),
   (fun fso => if fso.Maxlad ≠ 0 then ["/maxlad:" ++ Itoa fso.Maxlad] else []),
   (fun fso => if fso.Minlad ≠ 0 then ["/minlad:" ++ Itoa fso.Minlad] else []),
   (fun fso => if fso.Xj then ["/xj"] else []),
   (fun fso => if fso.Fft then ["/fft"] else []),
   (fun fso => if fso.Dst then ["/dst"] else []),
   (fun fso => if fso.Xjd then ["/xjd"] else []),
   (fun fso => if fso.Xjf then ["/xjf"] else [])]

/-- The token contribution of every field of `RetryOptions`, listed in the order in
which the fields are declared in the record (`R`, `W`, `Reg`, `Tbd`, `Lfsm`, `LfsmSize`). -/
def RetryOptions.declaredOrder : List (RetryOptions → List String) :=
  [(fun ropt => if ropt.R ≠ 0 then ["/r:" ++ Itoa ropt.R] else []),
   (fun ropt => if ropt.W ≠ 0 then ["/w:" ++ Itoa ropt.W] else []),
   (fun ropt => if ropt.Reg then ["/reg"] else []),
   (fun ropt => if ropt.Tbd then ["/tbd"] else []),
   (fun ropt => if ropt.Lfsm then ["/lfsm"] else []),
   (fun ropt => if !(ropt.LfsmSize).IsZero then ["/lfsm:" ++ Itoa ropt.LfsmSize.First ++ unitflags.UnitFlags.String ropt.LfsmSize.Second] else [])]

/-- The token contribution of every field of `LoggingOptions`, listed in the order in
which the fields are declared in the record. -/
def LoggingOptions.declaredOrder : List (LoggingOptions → List String) :=
  [(fun lopt => if lopt.L then ["/l"] else []),
   (fun lopt => if lopt.X then ["/x"] else []),
   (fun lopt => if lopt.V then ["/v"] else []),
   (fun lopt => if lopt.Ts then ["/ts"] else []),
   (fun lopt => if lopt.Fp then ["/fp"] else []),
   (fun lopt => if lopt.Bytes then ["/bytes"] else []),
   (fun lopt => if lopt.Ns then ["/ns"] else []),
   (fun lopt => if lopt.Nc then ["/nc"] else []),
   (fun lopt => if lopt.Nfl then ["/nfl"] else []),
   (fun lopt => if lopt.Ndl then ["/ndl"] else []),
   (fun lopt => if lopt.Np then ["/np"] else []),
   (fun lopt => if lopt.Eta then ["/eta"] else []),
   (fun lopt => if lopt.Log ≠ "" then ["/log:" ++ lopt.Log] else []),
   (fun lopt => if lopt.LogPlus ≠ "" then ["/log+:" ++ lopt.LogPlus] else []),
   (fun lopt => if lopt.UniLog ≠ "" then ["/unilog:" ++ lopt.UniLog] else []),
   (fun lopt => if lopt.UniLogPlus ≠ "" then ["/unilog+:" ++ lopt.UniLogPlus] else []),
   (fun lopt => if lopt.Tee then ["/tee"] else []),
   (fun lopt => if lopt.Njh then ["/njh"] else []),
   (fun lopt => if lopt.Njs then ["/njs"] else []),
   (fun lopt => if lopt.Unicode then ["/unicode"] else [])]

/-- The token contribution of every field of `JobOptions`, listed in the order in
which the fields are declared in the record (`Job`, `Save`, `Quit`, `Nosd`, `Nodd`, `If`). -/
def JobOptions.declaredOrder : List (JobOptions → List String) :=
  [(fun jopt => if jopt.Job ≠ "" then ["/job:" ++ jopt.Job] else []),
   (fun jopt => if jopt.Save ≠ "" then ["/save:" ++ jopt.Save] else []),
   (fun jopt => if jopt.Quit then ["/quit"] else []),
   (fun jopt => if jopt.Nosd then ["/nosd"] else []),
   (fun jopt => if jopt.Nodd then ["/nodd"] else []),
   (fun jopt => if jopt.If then ["/if"] else [])]

/-- The token contribution of every field of `JobOptions`, listed in the order
`Job`, `Quit`, `Nosd`, `Nodd`, `If`, `Save`, which has `Save` last. -/
def JobOptions.emittedOrder : List (JobOptions → List String) :=
  [(fun jopt => if jopt.Job ≠ "" then ["/job:" ++ jopt.Job] else []),
   (fun jopt => if jopt.Quit then ["/quit"] else []),
   (fun jopt => if jopt.Nosd then ["/nosd"] else []),
   (fun jopt => if jopt.Nodd then ["/nodd"] else []),
   (fun jopt => if jopt.If then ["/if"] else []),
   (fun jopt => if jopt.Save ≠ "" then ["/save:" ++ jopt.Save] else [])]

/-- The complement of a mask taken in 16 bits (Go `^m` at type `uint16`),
written as the exclusive or with the all-ones value `0xFFFF`. -/
def not16 (m : Nat) : Nat := m ^^^ 0xFFFF

/-- The flag value recovered from rendered letters: the union of the declared
bits of the letters occurring in `s`; a character that is no declared letter
contributes nothing. -/
def bitsOfLetters (table : List (Nat × String)) (s : String) : Nat :=
  s.data.foldl
    (fun acc ch =>
      acc ||| ((table.find? (fun e => e.2 == String.singleton ch)).map Prod.fst).getD 0)
    0

/-- The number of set bits of a 16-bit value. -/
def setBitCount (f : Nat) : Nat := ((List.range 16).filter (fun i => f.testBit i)).length

/-- `endsWithUnitLetter tok`: the last character of the token is one of the
unit letters `k`, `m`, `g`. -/
def endsWithUnitLetter (tok : String) : Bool :=
  tok.data.getLast? == some 'k' || tok.data.getLast? == some 'm'
    || tok.data.getLast? == some 'g'

/-! ## Auxiliary lemmas -/

theorem Pair.IsZero_iff (p : Pair) : p.IsZero = true ↔ p.First = 0 ∧ p.Second = 0 := by
  simp [Pair.IsZero]

theorem Pair.IsZero_eq_false {p : Pair} (h : p ≠ {}) : p.IsZero = false := by
  obtain ⟨a, b⟩ := p
  by_contra hz
  simp [Pair.IsZero] at hz
  exact h (by cases hz.1; cases hz.2; rfl)

theorem ite_append_tokens (p : Prop) [Decidable p] (r x : List String) :
    (if p then r ++ x else r) = r ++ (if p then x else []) := by
  split <;> simp

theorem ite_append_block (p : Prop) [Decidable p] (r x y : List String) :
    (if p then r ++ x ++ y else r) = r ++ (if p then x ++ y else []) := by
  split <;> simp

theorem ite_append_letter (p : Prop) [Decidable p] (r x : String) :
    (if p then r ++ x else r) = r ++ (if p then x else "") := by
  split
  · rfl
  · exact (String.append_empty r).symm

theorem occursBefore_append_right {a b : String} (l : List String) {m : List String}
    (h : occursBefore a b m = true) : occursBefore a b (l ++ m) = true := by
  induction l with
  | nil => simpa using h
  | cons x xs ih =>
    simp only [List.cons_append, occursBefore, Bool.or_eq_true]
    exact Or.inr ih

theorem occursBefore_append_mem {a b : String} {l m : List String}
    (ha : a ∈ l) (hb : b ∈ m) : occursBefore a b (l ++ m) = true := by
  induction l with
  | nil => simp at ha
  | cons x xs ih =>
    simp only [List.cons_append, occursBefore, Bool.or_eq_true, Bool.and_eq_true,
      decide_eq_true_eq, List.append_eq, List.mem_append]
    rcases List.mem_cons.1 ha with h | h
    · exact Or.inl ⟨h.symm, Or.inr hb⟩
    · exact Or.inr (ih h)

theorem occursBefore_flatten (parts : List (List String)) :
    ∀ (i j : Nat) (pi pj : List String), i < j → parts[i]? = some pi → parts[j]? = some pj →
      ∀ a ∈ pi, ∀ b ∈ pj, occursBefore a b parts.flatten = true := by
  induction parts with
  | nil => intro i j pi pj _ hi; simp at hi
  | cons p ps ih =>
    intro i j pi pj hij hi hj a ha b hb
    rw [List.flatten_cons]
    obtain ⟨j, rfl⟩ : ∃ k, j = k + 1 := ⟨j - 1, by omega⟩
    rw [List.getElem?_cons_succ] at hj
    cases i with
    | zero =>
      simp only [List.getElem?_cons_zero, Option.some.injEq] at hi
      subst hi
      exact occursBefore_append_mem ha
        (List.mem_flatten.2 ⟨pj, List.getElem?_mem hj, hb⟩)
    | succ i =>
      rw [List.getElem?_cons_succ] at hi
      exact occursBefore_append_right p (ih i j pi pj (by omega) hi hj a ha b hb)

theorem EmitsInOrder.of_flatten {G : Type} {render : G → List String}
    {table : List (G → List String)}
    (h : ∀ c : G, render c = (table.map (fun f => f c)).flatten) :
    EmitsInOrder render table := by
  refine ⟨h, ?_⟩
  intro c i j fi fj hij hi hj a ha b hb
  rw [h c]
  exact occursBefore_flatten _ i j (fi c) (fj c) hij (by simp [hi]) (by simp [hj]) a ha b hb

theorem CopyOptions_getCommandArgs_flatten (c : CopyOptions) :
    c.getCommandArgs = (CopyOptions.declaredOrder.map (fun f => f c)).flatten := by
  simp only [CopyOptions.getCommandArgs, ite_append_block, ite_append_tokens]
  simp only [CopyOptions.declaredOrder, List.map_cons, List.map_nil, List.flatten_cons,
    List.flatten_nil, List.append_assoc, List.nil_append, List.append_nil]

theorem CopyFileThrottlingOptions_getCommandArgs_flatten (c : CopyFileThrottlingOptions) :
    c.getCommandArgs
      = (CopyFileThrottlingOptions.declaredOrder.map (fun f => f c)).flatten := by
  simp only [CopyFileThrottlingOptions.getCommandArgs, ite_append_block, ite_append_tokens]
  simp only [CopyFileThrottlingOptions.declaredOrder, List.map_cons, List.map_nil,
    List.flatten_cons, List.flatten_nil, List.append_assoc, List.nil_append, List.append_nil]

theorem FileSelectionOptions_getCommandArgs_flatten (c : FileSelectionOptions) :
    c.getCommandArgs = (FileSelectionOptions.declaredOrder.map (fun f => f c)).flatten := by
  simp only [FileSelectionOptions.getCommandArgs, ite_append_block, ite_append_tokens]
  simp only [FileSelectionOptions.declaredOrder, List.map_cons, List.map_nil,
    List.flatten_cons, List.flatten_nil, List.append_assoc, List.nil_append, List.append_nil]

theorem RetryOptions_getCommandArgs_flatten (c : RetryOptions) :
    c.getCommandArgs = (RetryOptions.declaredOrder.map (fun f => f c)).flatten := by
  simp only [RetryOptions.getCommandArgs, ite_append_block, ite_append_tokens]
  simp only [RetryOptions.declaredOrder, List.map_cons, List.map_nil, List.flatten_cons,
    List.flatten_nil, List.append_assoc, List.nil_append, List.append_nil]

theorem LoggingOptions_getCommandArgs_flatten (c : LoggingOptions) :
    c.getCommandArgs = (LoggingOptions.declaredOrder.map (fun f => f c)).flatten := by
  simp only [LoggingOptions.getCommandArgs, ite_append_block, ite_append_tokens]
  simp only [LoggingOptions.declaredOrder, List.map_cons, List.map_nil, List.flatten_cons,
    List.flatten_nil, List.append_assoc, List.nil_append, List.append_nil]

theorem JobOptions_getCommandArgs_flatten (c : JobOptions) :
    c.getCommandArgs = (JobOptions.emittedOrder.map (fun f => f c)).flatten := by
  simp only [JobOptions.getCommandArgs, ite_append_block, ite_append_tokens]
  simp only [JobOptions.emittedOrder, List.map_cons, List.map_nil, List.flatten_cons,
    List.flatten_nil, List.append_assoc, List.nil_append, List.append_nil]

theorem beginsWith_self_append (p l : List Char) : beginsWith p (p ++ l) = true := by
  induction p with
  | nil => simp [beginsWith]
  | cons a as ih => simp [beginsWith, ih]

theorem hasSwitch_append (sw s : String) : hasSwitch sw (sw ++ s) = true := by
  simp [hasSwitch, String.data_append, beginsWith_self_append]

theorem hasSwitch_append_append (sw s t : String) : hasSwitch sw (sw ++ s ++ t) = true := by
  rw [String.append_assoc]
  exact hasSwitch_append sw _

theorem ne_of_hasSwitch_eq_false {sw tok : String} (h : hasSwitch sw tok = false) :
    ¬ sw = tok := by
  rintro rfl
  have hs := hasSwitch_append sw ""
  simp only [String.append_empty] at hs
  rw [hs] at h
  exact Bool.noConfusion h

theorem filter_ite_singleton (q : String → Bool) (p : Prop) [Decidable p] (tok : String) :
    (if p then [tok] else []).filter q = if p ∧ q tok = true then [tok] else [] := by
  by_cases hp : p <;> by_cases hq : q tok = true <;> simp [hp, hq]

theorem flags.Has_two_pow (f i : Nat) :
    flags.Has f (2 ^ i) = decide (f &&& 2 ^ i = 2 ^ i) := by
  have hpos : 0 < 2 ^ i := Nat.two_pow_pos i
  rw [flags.Has, Nat.and_two_pow]
  cases f.testBit i
  · simp; omega
  · simp

set_option maxRecDepth 100000 in
theorem copyflags_lettersToBits_lt :
    ∀ f, f < 128 → lettersToBits copyflags.letters f = f := by
  decide

set_option maxRecDepth 100000 in
theorem dcopyflags_lettersToBits_lt :
    ∀ f, f < 32 → lettersToBits dcopyflags.letters f = f := by
  decide

set_option maxRecDepth 100000 in
theorem aflags_lettersToBits_lt :
    ∀ f, f < 512 → lettersToBits aflags.letters f = f := by
  decide

/-! ## Command assembly -/

/-- C1: the argument list is source, destination and file, followed by the
tokens of the attached groups in the order copy, throttling, file-selection,
retry, logging, job, a `nil` group contributing nothing; so the first three
tokens are the positional ones and the length is three plus the token counts of
the attached groups. -/
theorem C1_GetCommandArgs_layout (r : Robocopy) :
    r.GetCommandArgs =
        [r.source, r.destination, r.file]
          ++ attachedTokens CopyOptions.getCommandArgs r.copyOpt
          ++ attachedTokens CopyFileThrottlingOptions.getCommandArgs r.throttlingOpt
          ++ attachedTokens FileSelectionOptions.getCommandArgs r.fileslOpt
          ++ attachedTokens RetryOptions.getCommandArgs r.retryOpt
          ++ attachedTokens LoggingOptions.getCommandArgs r.loggingOpt
          ++ attachedTokens JobOptions.getCommandArgs r.jobOpt
      ∧ r.GetCommandArgs.take 3 = [r.source, r.destination, r.file]
      ∧ r.GetCommandArgs.length =
          3 + (attachedTokens CopyOptions.getCommandArgs r.copyOpt).length
            + (attachedTokens CopyFileThrottlingOptions.getCommandArgs r.throttlingOpt).length
            + (attachedTokens FileSelectionOptions.getCommandArgs r.fileslOpt).length
            + (attachedTokens RetryOptions.getCommandArgs r.retryOpt).length
            + (attachedTokens LoggingOptions.getCommandArgs r.loggingOpt).length
            + (attachedTokens JobOptions.getCommandArgs r.jobOpt).length := by
  have layout : r.GetCommandArgs =
      [r.source, r.destination, r.file]
        ++ attachedTokens CopyOptions.getCommandArgs r.copyOpt
        ++ attachedTokens CopyFileThrottlingOptions.getCommandArgs r.throttlingOpt
        ++ attachedTokens FileSelectionOptions.getCommandArgs r.fileslOpt
        ++ attachedTokens RetryOptions.getCommandArgs r.retryOpt
        ++ attachedTokens LoggingOptions.getCommandArgs r.loggingOpt
        ++ attachedTokens JobOptions.getCommandArgs r.jobOpt := by
    obtain ⟨s, d, f, co, th, fs, re, lo, jo, ec⟩ := r
    cases co <;> cases th <;> cases fs <;> cases re <;> cases lo <;> cases jo <;>
      simp [Robocopy.GetCommandArgs, attachedTokens]
  refine ⟨layout, ?_, ?_⟩
  · rw [layout]
    simp [List.append_assoc]
  · rw [layout]
    simp only [List.length_append, List.length_cons, List.length_nil]

/-- C2: the end-to-end scenario of `TestCommandOne` renders the expected
twelve-token argument vector. -/
theorem C2_TestCommandOne :
    (((((NewRobocopy "C:\\source" "D:\\destination" "*.*").SetCopyOptions
          (some { E := true, Mt := 4, Copy := copyflags.D ||| copyflags.A ||| copyflags.T })
        ).SetFileSelectionOptions (some { Xf := ["*.tmp", "*.bak"] })
        ).SetLoggingOptions (some { V := true })
        ).SetJobOptions (some { Save := "MyJob", Quit := true })).GetCommandArgs
      = ["C:\\source", "D:\\destination", "*.*", "/e", "/copy:DAT", "/mt:4",
         "/xf", "*.tmp", "*.bak", "/v", "/quit", "/save:MyJob"] := by
  decide

/-- C3: each of the six option groups in its zero state serializes to no
tokens, and a descriptor with all six zero-state groups attached renders the
same three tokens as a descriptor with no group attached. -/
theorem C3_zero_groups_render_nothing :
    CopyOptions.getCommandArgs {} = []
      ∧ CopyFileThrottlingOptions.getCommandArgs {} = []
      ∧ FileSelectionOptions.getCommandArgs {} = []
      ∧ RetryOptions.getCommandArgs {} = []
      ∧ LoggingOptions.getCommandArgs {} = []
      ∧ JobOptions.getCommandArgs {} = []
      ∧ ∀ s d f : String,
          (((((((NewRobocopy s d f).SetCopyOptions (some {})
            ).SetThrottlingOptions (some {})
            ).SetFileSelectionOptions (some {})
            ).SetRetryOptions (some {})
            ).SetLoggingOptions (some {})
            ).SetJobOptions (some {})).GetCommandArgs
              = (NewRobocopy s d f).GetCommandArgs
          ∧ (NewRobocopy s d f).GetCommandArgs = [s, d, f] := by
  refine ⟨by decide, by decide, by decide, by decide, by decide, by decide, ?_⟩
  intro s d f
  constructor <;> rfl
/-! ## Option-group serialization -/

/-- C4: with exactly one non-list field set to a non-default value and all
others zero, every option group serializes to exactly one token: the bare
switch for a boolean, switch, colon and decimal text for an integer, switch,
colon and the text itself for a string, switch, colon and rendered letters for
a flag group, and switch, colon, decimal magnitude and unit letter for a sized
quantity. -/
theorem C4_single_field_single_token :
    CopyOptions.getCommandArgs { Purge := true } = ["/purge"]
      ∧ CopyOptions.getCommandArgs { Lev := 3 } = ["/lev:3"]
      ∧ LoggingOptions.getCommandArgs { Log := "out.txt" } = ["/log:out.txt"]
      ∧ CopyOptions.getCommandArgs { APlus := aflags.R ||| aflags.H } = ["/a+:RH"]
      ∧ CopyOptions.getCommandArgs { S := true } = ["/s"]
      ∧ CopyOptions.getCommandArgs { E := true } = ["/e"]
      ∧ (∀ n : Int, n ≠ 0 → CopyOptions.getCommandArgs { Lev := n } = ["/lev:" ++ Itoa n])
      ∧ CopyOptions.getCommandArgs { Z := true } = ["/z"]
      ∧ CopyOptions.getCommandArgs { B := true } = ["/b"]
      ∧ CopyOptions.getCommandArgs { Zb := true } = ["/zb"]
      ∧ CopyOptions.getCommandArgs { J := true } = ["/j"]
      ∧ CopyOptions.getCommandArgs { EsfRaw := true } = ["/efsraw"]
      ∧ (∀ f : copyflags.CopyFlags, f ≠ 0 →
        CopyOptions.getCommandArgs { Copy := f } = ["/copy:" ++ copyflags.CopyFlags.String f])
      ∧ (∀ f : dcopyflags.DCopyFlags, f ≠ 0 →
        CopyOptions.getCommandArgs { Dcopy := f } = ["/dcopy:" ++ dcopyflags.DCopyFlags.String f])
      ∧ CopyOptions.getCommandArgs { Sec := true } = ["/sec"]
      ∧ CopyOptions.getCommandArgs { CopyAll := true } = ["/copyall"]
      ∧ CopyOptions.getCommandArgs { NoCopy := true } = ["/nocopy"]
      ∧ CopyOptions.getCommandArgs { SecFix := true } = ["/secfix"]
      ∧ CopyOptions.getCommandArgs { TimFix := true } = ["/timfix"]
      ∧ CopyOptions.getCommandArgs { Purge := true } = ["/purge"]
      ∧ CopyOptions.getCommandArgs { Mir := true } = ["/mir"]
      ∧ CopyOptions.getCommandArgs { Mov := true } = ["/mov"]
      ∧ CopyOptions.getCommandArgs { Move := true } = ["/move"]
      ∧ (∀ f : aflags.AFlags, f ≠ 0 →
        CopyOptions.getCommandArgs { APlus := f } = ["/a+:" ++ aflags.AFlags.String f])
      ∧ (∀ f : aflags.AFlags, f ≠ 0 →
        CopyOptions.getCommandArgs { AMinus := f } = ["/a-:" ++ aflags.AFlags.String f])
      ∧ CopyOptions.getCommandArgs { Create := true } = ["/create"]
      ∧ CopyOptions.getCommandArgs { Fat := true } = ["/fat"]
      ∧ CopyOptions.getCommandArgs { NoMoreThan256 := true } = ["/256"]
      ∧ (∀ n : Int, n ≠ 0 → CopyOptions.getCommandArgs { Mon := n } = ["/mon:" ++ Itoa n])
      ∧ (∀ n : Int, n ≠ 0 → CopyOptions.getCommandArgs { Mot := n } = ["/mot:" ++ Itoa n])
      ∧ (∀ s : String, s ≠ "" → CopyOptions.getCommandArgs { Rh := s } = ["/rh:" ++ s])
      ∧ CopyOptions.getCommandArgs { Pf := true } = ["/pf"]
      ∧ (∀ n : Int, n ≠ 0 → CopyOptions.getCommandArgs { Ipg := n } = ["/ipg:" ++ Itoa n])
      ∧ CopyOptions.getCommandArgs { Sj := true } = ["/sj"]
      ∧ CopyOptions.getCommandArgs { Sl := true } = ["/sl"]
      ∧ (∀ n : Int, n ≠ 0 → CopyOptions.getCommandArgs { Mt := n } = ["/mt:" ++ Itoa n])
      ∧ CopyOptions.getCommandArgs { Nodcopy := true } = ["/nodcopy"]
      ∧ CopyOptions.getCommandArgs { Nooffload := true } = ["/nooffload"]
      ∧ CopyOptions.getCommandArgs { Compress := true } = ["/compress"]
      ∧ CopyOptions.getCommandArgs { Sparse := true } = ["/sparse"]
      ∧ (∀ p : Pair, p ≠ {} →
        CopyFileThrottlingOptions.getCommandArgs { Iomaxsize := p }
          = ["/iomaxsize:" ++ Itoa p.First ++ unitflags.UnitFlags.String p.Second])
      ∧ (∀ p : Pair, p ≠ {} →
        CopyFileThrottlingOptions.getCommandArgs { Iorate := p }
          = ["/iorate:" ++ Itoa p.First ++ unitflags.UnitFlags.String p.Second])
      ∧ (∀ p : Pair, p ≠ {} →
        CopyFileThrottlingOptions.getCommandArgs { Threshold := p }
          = ["/threshold:" ++ Itoa p.First ++ unitflags.UnitFlags.String p.Second])
      ∧ FileSelectionOptions.getCommandArgs { A := true } = ["/a"]
      ∧ FileSelectionOptions.getCommandArgs { M := true } = ["/m"]
      ∧ (∀ f : aflags.AFlags, f ≠ 0 →
        FileSelectionOptions.getCommandArgs { Ia := f } = ["/ia:" ++ aflags.AFlags.String f])
      ∧ (∀ f : aflags.AFlags, f ≠ 0 →
        FileSelectionOptions.getCommandArgs { Xa := f } = ["/xa:" ++ aflags.AFlags.String f])
      ∧ FileSelectionOptions.getCommandArgs { Xc := true } = ["/xc"]
      ∧ FileSelectionOptions.getCommandArgs { Xn := true } = ["/xn"]
      ∧ FileSelectionOptions.getCommandArgs { Xo := true } = ["/xo"]
      ∧ FileSelectionOptions.getCommandArgs { Xx := true } = ["/xx"]
      ∧ FileSelectionOptions.getCommandArgs { Xl := true } = ["/xl"]
      ∧ FileSelectionOptions.getCommandArgs { Im := true } = ["/im"]
      ∧ FileSelectionOptions.getCommandArgs { Is := true } = ["/is"]
      ∧ FileSelectionOptions.getCommandArgs { It := true } = ["/it"]
      ∧ (∀ n : Int, n ≠ 0 → FileSelectionOptions.getCommandArgs { Max := n } = ["/max:" ++ Itoa n])
      ∧ (∀ n : Int, n ≠ 0 → FileSelectionOptions.getCommandArgs { Min := n } = ["/min:" ++ Itoa n])
      ∧ (∀ n : Int, n ≠ 0 → FileSelectionOptions.getCommandArgs { Maxage := n } = ["/maxage:" ++ Itoa n])
      ∧ (∀ n : Int, n ≠ 0 → FileSelectionOptions.getCommandArgs { Minage := n } = ["/minage:" ++ Itoa n])
      ∧ (∀ n : Int, n ≠ 0 → FileSelectionOptions.getCommandArgs { Maxlad := n } = ["/maxlad:" ++ Itoa n])
      ∧ (∀ n : Int, n ≠ 0 → FileSelectionOptions.getCommandArgs { Minlad := n } = ["/minlad:" ++ Itoa n])
      ∧ FileSelectionOptions.getCommandArgs { Xj := true } = ["/xj"]
      ∧ FileSelectionOptions.getCommandArgs { Fft := true } = ["/fft"]
      ∧ FileSelectionOptions.getCommandArgs { Dst := true } = ["/dst"]
      ∧ FileSelectionOptions.getCommandArgs { Xjd := true } = ["/xjd"]
      ∧ FileSelectionOptions.getCommandArgs { Xjf := true } = ["/xjf"]
      ∧ (∀ n : Int, n ≠ 0 → RetryOptions.getCommandArgs { R := n } = ["/r:" ++ Itoa n])
      ∧ (∀ n : Int, n ≠ 0 → RetryOptions.getCommandArgs { W := n } = ["/w:" ++ Itoa n])
      ∧ RetryOptions.getCommandArgs { Reg := true } = ["/reg"]
      ∧ RetryOptions.getCommandArgs { Tbd := true } = ["/tbd"]
      ∧ RetryOptions.getCommandArgs { Lfsm := true } = ["/lfsm"]
      ∧ (∀ p : Pair, p ≠ {} →
        RetryOptions.getCommandArgs { LfsmSize := p }
          = ["/lfsm:" ++ Itoa p.First ++ unitflags.UnitFlags.String p.Second])
      ∧ LoggingOptions.getCommandArgs { L := true } = ["/l"]
      ∧ LoggingOptions.getCommandArgs { X := true } = ["/x"]
      ∧ LoggingOptions.getCommandArgs { V := true } = ["/v"]
      ∧ LoggingOptions.getCommandArgs { Ts := true } = ["/ts"]
      ∧ LoggingOptions.getCommandArgs { Fp := true } = ["/fp"]
      ∧ LoggingOptions.getCommandArgs { Bytes := true } = ["/bytes"]
      ∧ LoggingOptions.getCommandArgs { Ns := true } = ["/ns"]
      ∧ LoggingOptions.getCommandArgs { Nc := true } = ["/nc"]
      ∧ LoggingOptions.getCommandArgs { Nfl := true } = ["/nfl"]
      ∧ LoggingOptions.getCommandArgs { Ndl := true } = ["/ndl"]
      ∧ LoggingOptions.getCommandArgs { Np := true } = ["/np"]
      ∧ LoggingOptions.getCommandArgs { Eta := true } = ["/eta"]
      ∧ (∀ s : String, s ≠ "" → LoggingOptions.getCommandArgs { Log := s } = ["/log:" ++ s])
      ∧ (∀ s : String, s ≠ "" → LoggingOptions.getCommandArgs { LogPlus := s } = ["/log+:" ++ s])
      ∧ (∀ s : String, s ≠ "" → LoggingOptions.getCommandArgs { UniLog := s } = ["/unilog:" ++ s])
      ∧ (∀ s : String, s ≠ "" → LoggingOptions.getCommandArgs { UniLogPlus := s } = ["/unilog+:" ++ s])
      ∧ LoggingOptions.getCommandArgs { Tee := true } = ["/tee"]
      ∧ LoggingOptions.getCommandArgs { Njh := true } = ["/njh"]
      ∧ LoggingOptions.getCommandArgs { Njs := true } = ["/njs"]
      ∧ LoggingOptions.getCommandArgs { Unicode := true } = ["/unicode"]
      ∧ (∀ s : String, s ≠ "" → JobOptions.getCommandArgs { Job := s } = ["/job:" ++ s])
      ∧ (∀ s : String, s ≠ "" → JobOptions.getCommandArgs { Save := s } = ["/save:" ++ s])
      ∧ JobOptions.getCommandArgs { Quit := true } = ["/quit"]
      ∧ JobOptions.getCommandArgs { Nosd := true } = ["/nosd"]
      ∧ JobOptions.getCommandArgs { Nodd := true } = ["/nodd"]
      ∧ JobOptions.getCommandArgs { If := true } = ["/if"] := by
  have hz : Pair.IsZero { First := 0, Second := 0 } = true := rfl
  and_intros
  all_goals first
    | decide
    | (intro x hx
       simp [CopyFileThrottlingOptions.getCommandArgs, RetryOptions.getCommandArgs,
         Pair.IsZero_eq_false hx, hz])
    | (intro x hx
       simp [CopyOptions.getCommandArgs, FileSelectionOptions.getCommandArgs,
         RetryOptions.getCommandArgs, LoggingOptions.getCommandArgs,
         JobOptions.getCommandArgs, hx, hz])

/-- C4, at a concrete input: `CopyOptions{Lev: -7}` serializes to `["/lev:-7"]`. -/
theorem C4_single_field_single_token_witness :
    (-7 : Int) ≠ 0 ∧ CopyOptions.getCommandArgs { Lev := -7 } = ["/lev:-7"] :=
  ⟨by decide, C4_single_field_single_token.2.2.2.2.2.2.1 (-7) (by decide)⟩

/-- C5, as stated, fails for `JobOptions`: `Save` is declared before `Quit`, yet
`JobOptions{Save: "MyJob", Quit: true}` serializes to `["/quit", "/save:MyJob"]`,
where the `/save:` token does not precede `/quit`; so `JobOptions` does not emit
in declared field order. -/
theorem C5_counterexample_job_save_after_quit :
    JobOptions.getCommandArgs { Save := "MyJob", Quit := true } = ["/quit", "/save:MyJob"]
      ∧ occursBefore "/save:MyJob" "/quit"
          (JobOptions.getCommandArgs { Save := "MyJob", Quit := true }) = false
      ∧ ¬ EmitsInOrder JobOptions.getCommandArgs JobOptions.declaredOrder := by
  refine ⟨by decide, by decide, ?_⟩
  intro h
  have h1 := h.1 { Save := "MyJob", Quit := true }
  revert h1
  decide

/-- C5, amended: `CopyOptions`, `CopyFileThrottlingOptions`,
`FileSelectionOptions`, `RetryOptions` and `LoggingOptions` emit their tokens in
the order in which the fields are declared; `JobOptions` emits in the order
`Job`, `Quit`, `Nosd`, `Nodd`, `If`, `Save`, so that the `/save:` token follows
the `/job:`, `/quit`, `/nosd`, `/nodd` and `/if` tokens whenever they are
emitted together. -/
theorem C5_emission_order :
    EmitsInOrder CopyOptions.getCommandArgs CopyOptions.declaredOrder
      ∧ EmitsInOrder CopyFileThrottlingOptions.getCommandArgs
          CopyFileThrottlingOptions.declaredOrder
      ∧ EmitsInOrder FileSelectionOptions.getCommandArgs FileSelectionOptions.declaredOrder
      ∧ EmitsInOrder RetryOptions.getCommandArgs RetryOptions.declaredOrder
      ∧ EmitsInOrder LoggingOptions.getCommandArgs LoggingOptions.declaredOrder
      ∧ EmitsInOrder JobOptions.getCommandArgs JobOptions.emittedOrder
      ∧ ∀ jopt : JobOptions, jopt.Save ≠ "" →
          (jopt.Job ≠ "" →
              occursBefore ("/job:" ++ jopt.Job) ("/save:" ++ jopt.Save)
                jopt.getCommandArgs = true)
            ∧ (jopt.Quit = true →
              occursBefore "/quit" ("/save:" ++ jopt.Save) jopt.getCommandArgs = true)
            ∧ (jopt.Nosd = true →
              occursBefore "/nosd" ("/save:" ++ jopt.Save) jopt.getCommandArgs = true)
            ∧ (jopt.Nodd = true →
              occursBefore "/nodd" ("/save:" ++ jopt.Save) jopt.getCommandArgs = true)
            ∧ (jopt.If = true →
              occursBefore "/if" ("/save:" ++ jopt.Save) jopt.getCommandArgs = true) := by
  have hjob : EmitsInOrder JobOptions.getCommandArgs JobOptions.emittedOrder :=
    EmitsInOrder.of_flatten JobOptions_getCommandArgs_flatten
  refine ⟨EmitsInOrder.of_flatten CopyOptions_getCommandArgs_flatten,
    EmitsInOrder.of_flatten CopyFileThrottlingOptions_getCommandArgs_flatten,
    EmitsInOrder.of_flatten FileSelectionOptions_getCommandArgs_flatten,
    EmitsInOrder.of_flatten RetryOptions_getCommandArgs_flatten,
    EmitsInOrder.of_flatten LoggingOptions_getCommandArgs_flatten, hjob, ?_⟩
  intro jopt hsave
  have hlast : ("/save:" ++ jopt.Save) ∈
      (fun j : JobOptions => if j.Save ≠ "" then ["/save:" ++ j.Save] else []) jopt := by
    simp [hsave]
  refine ⟨fun hf => ?_, fun hf => ?_, fun hf => ?_, fun hf => ?_, fun hf => ?_⟩
  · exact hjob.2 jopt 0 5 (fun j => if j.Job ≠ "" then ["/job:" ++ j.Job] else []) _
      (by decide) rfl rfl _ (by simp [hf]) _ hlast
  · exact hjob.2 jopt 1 5 (fun j => if j.Quit then ["/quit"] else []) _
      (by decide) rfl rfl _ (by simp [hf]) _ hlast
  · exact hjob.2 jopt 2 5 (fun j => if j.Nosd then ["/nosd"] else []) _
      (by decide) rfl rfl _ (by simp [hf]) _ hlast
  · exact hjob.2 jopt 3 5 (fun j => if j.Nodd then ["/nodd"] else []) _
      (by decide) rfl rfl _ (by simp [hf]) _ hlast
  · exact hjob.2 jopt 4 5 (fun j => if j.If then ["/if"] else []) _
      (by decide) rfl rfl _ (by simp [hf]) _ hlast

/-- C5 amended, at a concrete input: in the tokens of
`JobOptions{Save: "MyJob", Quit: true}` the `/quit` token precedes `/save:MyJob`. -/
theorem C5_emission_order_witness :
    ("MyJob" : String) ≠ "" ∧ (true = true) ∧
      occursBefore "/quit" "/save:MyJob"
        (JobOptions.getCommandArgs { Save := "MyJob", Quit := true }) = true :=
  ⟨by decide, rfl,
    (C5_emission_order.2.2.2.2.2.2 { Save := "MyJob", Quit := true } (by decide)).2.1 rfl⟩

/-- C6: in each of the four sized-quantity fields (`Iomaxsize`, `Iorate`,
`Threshold`, `LfsmSize`) the pair (0, 0) produces no token and any other pair
produces exactly the field's token: the tokens carrying the field's switch are
none when magnitude and unit are both zero, and otherwise the single token
switch, decimal magnitude, unit letter; so (0, Kilobytes) gives `/iomaxsize:0k`. -/
theorem C6_sized_quantity_emitted_iff_nonzero :
    (∀ t : CopyFileThrottlingOptions,
        t.getCommandArgs.filter (hasSwitch "/iomaxsize:")
          = if t.Iomaxsize.First = 0 ∧ t.Iomaxsize.Second = 0 then []
            else ["/iomaxsize:" ++ Itoa t.Iomaxsize.First
                    ++ unitflags.UnitFlags.String t.Iomaxsize.Second])
      ∧ (∀ t : CopyFileThrottlingOptions,
        t.getCommandArgs.filter (hasSwitch "/iorate:")
          = if t.Iorate.First = 0 ∧ t.Iorate.Second = 0 then []
            else ["/iorate:" ++ Itoa t.Iorate.First
                    ++ unitflags.UnitFlags.String t.Iorate.Second])
      ∧ (∀ t : CopyFileThrottlingOptions,
        t.getCommandArgs.filter (hasSwitch "/threshold:")
          = if t.Threshold.First = 0 ∧ t.Threshold.Second = 0 then []
            else ["/threshold:" ++ Itoa t.Threshold.First
                    ++ unitflags.UnitFlags.String t.Threshold.Second])
      ∧ (∀ ropt : RetryOptions,
        ropt.getCommandArgs.filter (hasSwitch "/lfsm:")
          = if ropt.LfsmSize.First = 0 ∧ ropt.LfsmSize.Second = 0 then []
            else ["/lfsm:" ++ Itoa ropt.LfsmSize.First
                    ++ unitflags.UnitFlags.String ropt.LfsmSize.Second])
      ∧ CopyFileThrottlingOptions.getCommandArgs
          { Iomaxsize := { First := 0, Second := unitflags.Kilobytes } } = ["/iomaxsize:0k"]
      ∧ CopyFileThrottlingOptions.getCommandArgs
          { Iomaxsize := { First := 0, Second := 0 } } = []
      ∧ RetryOptions.getCommandArgs { LfsmSize := { First := 0, Second := 0 } } = [] := by
  have e1 : ∀ s t : String, hasSwitch "/iomaxsize:" ("/iorate:" ++ s ++ t) = false :=
    fun _ _ => rfl
  have e2 : ∀ s t : String, hasSwitch "/iomaxsize:" ("/threshold:" ++ s ++ t) = false :=
    fun _ _ => rfl
  have e3 : ∀ s t : String, hasSwitch "/iorate:" ("/iomaxsize:" ++ s ++ t) = false :=
    fun _ _ => rfl
  have e4 : ∀ s t : String, hasSwitch "/iorate:" ("/threshold:" ++ s ++ t) = false :=
    fun _ _ => rfl
  have e5 : ∀ s t : String, hasSwitch "/threshold:" ("/iomaxsize:" ++ s ++ t) = false :=
    fun _ _ => rfl
  have e6 : ∀ s t : String, hasSwitch "/threshold:" ("/iorate:" ++ s ++ t) = false :=
    fun _ _ => rfl
  have e7 : ∀ s : String, hasSwitch "/lfsm:" ("/r:" ++ s) = false := fun _ => rfl
  have e8 : ∀ s : String, hasSwitch "/lfsm:" ("/w:" ++ s) = false := fun _ => rfl
  have e9 : hasSwitch "/lfsm:" "/reg" = false ∧ hasSwitch "/lfsm:" "/tbd" = false
      ∧ hasSwitch "/lfsm:" "/lfsm" = false := by decide
  refine ⟨?_, ?_, ?_, ?_, by decide, by decide, by decide⟩
  · intro t
    simp only [CopyFileThrottlingOptions.getCommandArgs, ite_append_tokens, List.nil_append,
      List.filter_append, filter_ite_singleton, e1, e2, hasSwitch_append_append,
      Bool.not_eq_true', ← Bool.not_eq_true, Pair.IsZero_iff]
    by_cases h1 : t.Iomaxsize.First = 0 <;> by_cases h2 : t.Iomaxsize.Second = 0 <;>
      simp [h1, h2]
  · intro t
    simp only [CopyFileThrottlingOptions.getCommandArgs, ite_append_tokens, List.nil_append,
      List.filter_append, filter_ite_singleton, e3, e4, hasSwitch_append_append,
      Bool.not_eq_true', ← Bool.not_eq_true, Pair.IsZero_iff]
    by_cases h1 : t.Iorate.First = 0 <;> by_cases h2 : t.Iorate.Second = 0 <;>
      simp [h1, h2]
  · intro t
    simp only [CopyFileThrottlingOptions.getCommandArgs, ite_append_tokens, List.nil_append,
      List.filter_append, filter_ite_singleton, e5, e6, hasSwitch_append_append,
      Bool.not_eq_true', ← Bool.not_eq_true, Pair.IsZero_iff]
    by_cases h1 : t.Threshold.First = 0 <;> by_cases h2 : t.Threshold.Second = 0 <;>
      simp [h1, h2]
  · intro ropt
    simp only [RetryOptions.getCommandArgs, ite_append_tokens, List.nil_append,
      List.filter_append, filter_ite_singleton, e7, e8, e9, hasSwitch_append_append,
      Bool.not_eq_true', ← Bool.not_eq_true, Pair.IsZero_iff]
    by_cases h1 : ropt.LfsmSize.First = 0 <;> by_cases h2 : ropt.LfsmSize.Second = 0 <;>
      simp [h1, h2]

/-- C7: in the tokens of every `FileSelectionOptions` value, the tokens of `A`,
`M`, `Ia`, `Xa` are followed by the `Xf` block, then the `Xd` block, then the
tokens of the remaining fields, where the block of a non-empty list is its
switch immediately followed by the list elements in order and the block of an
empty list is empty (the switch itself is not emitted); with only `Xf = xs`
set, the result is `"/xf" :: xs`. -/
theorem C7_exclusion_lists :
    (∀ fso : FileSelectionOptions,
        fso.getCommandArgs =
          FileSelectionOptions.getCommandArgs
              { A := fso.A, M := fso.M, Ia := fso.Ia, Xa := fso.Xa }
            ++ (if fso.Xf = [] then [] else "/xf" :: fso.Xf)
            ++ (if fso.Xd = [] then [] else "/xd" :: fso.Xd)
            ++ FileSelectionOptions.getCommandArgs
              { fso with A := false, M := false, Ia := 0, Xa := 0, Xf := [], Xd := [] })
      ∧ (∀ xs : List String, xs ≠ [] →
          FileSelectionOptions.getCommandArgs { Xf := xs } = "/xf" :: xs)
      ∧ (∀ xs : List String, xs ≠ [] →
          FileSelectionOptions.getCommandArgs { Xd := xs } = "/xd" :: xs)
      ∧ (∀ xs ys : List String, xs ≠ [] → ys ≠ [] →
          FileSelectionOptions.getCommandArgs { Xf := xs, Xd := ys }
            = "/xf" :: xs ++ "/xd" :: ys)
      ∧ (∀ fso : FileSelectionOptions, fso.Xf = [] → "/xf" ∉ fso.Xd →
          "/xf" ∉ fso.getCommandArgs)
      ∧ (∀ fso : FileSelectionOptions, fso.Xd = [] → "/xd" ∉ fso.Xf →
          "/xd" ∉ fso.getCommandArgs) := by
  refine ⟨?_, ?_, ?_, ?_, ?_, ?_⟩
  · intro fso
    simp only [FileSelectionOptions.getCommandArgs, ite_append_block, ite_append_tokens]
    by_cases h1 : fso.Xf = [] <;> by_cases h2 : fso.Xd = [] <;> simp [h1, h2]
  · intro xs hxs
    simp [FileSelectionOptions.getCommandArgs, hxs]
  · intro xs hxs
    simp [FileSelectionOptions.getCommandArgs, hxs]
  · intro xs ys hxs hys
    simp [FileSelectionOptions.getCommandArgs, hxs, hys]
  · intro fso hxf hxd
    simp only [FileSelectionOptions.getCommandArgs, ite_append_block, ite_append_tokens]
    simp [hxf, hxd]
    exact ⟨fun _ => ne_of_hasSwitch_eq_false rfl, fun _ => ne_of_hasSwitch_eq_false rfl,
      fun _ => ne_of_hasSwitch_eq_false rfl, fun _ => ne_of_hasSwitch_eq_false rfl,
      fun _ => ne_of_hasSwitch_eq_false rfl, fun _ => ne_of_hasSwitch_eq_false rfl,
      fun _ => ne_of_hasSwitch_eq_false rfl, fun _ => ne_of_hasSwitch_eq_false rfl⟩
  · intro fso hxd hxf
    simp only [FileSelectionOptions.getCommandArgs, ite_append_block, ite_append_tokens]
    simp [hxf, hxd]
    exact ⟨fun _ => ne_of_hasSwitch_eq_false rfl, fun _ => ne_of_hasSwitch_eq_false rfl,
      fun _ => ne_of_hasSwitch_eq_false rfl, fun _ => ne_of_hasSwitch_eq_false rfl,
      fun _ => ne_of_hasSwitch_eq_false rfl, fun _ => ne_of_hasSwitch_eq_false rfl,
      fun _ => ne_of_hasSwitch_eq_false rfl, fun _ => ne_of_hasSwitch_eq_false rfl⟩

/-- C7, at a concrete input: `FileSelectionOptions{Xf: ["*.tmp", "*.bak"]}`
serializes to `["/xf", "*.tmp", "*.bak"]`. -/
theorem C7_exclusion_lists_witness :
    ["*.tmp", "*.bak"] ≠ ([] : List String)
      ∧ FileSelectionOptions.getCommandArgs { Xf := ["*.tmp", "*.bak"] }
          = ["/xf", "*.tmp", "*.bak"] :=
  ⟨by decide, C7_exclusion_lists.2.1 ["*.tmp", "*.bak"] (by decide)⟩

/-! ## Flag-group rendering -/

/-- C8: for every `CopyFlags` value within the declared bits D, A, T, X, S, O, U,
`String()` is the concatenation, in declared order, of the letters of exactly
the set bits; each single flag renders to its letter, `Default` to `"DAT"`, `D`
with one other flag to `"D"` and that flag's letter, and 0 to the empty string. -/
theorem C8_CopyFlags_String :
    (∀ f : copyflags.CopyFlags,
        f &&& (copyflags.D ||| copyflags.A ||| copyflags.T ||| copyflags.X
            ||| copyflags.S ||| copyflags.O ||| copyflags.U) = f →
          copyflags.CopyFlags.String f = renderInOrder copyflags.letters f
            ∧ lettersToBits copyflags.letters f = f)
      ∧ [copyflags.D, copyflags.A, copyflags.T, copyflags.X, copyflags.S, copyflags.O,
          copyflags.U, copyflags.Default].map copyflags.CopyFlags.String
          = ["D", "A", "T", "X", "S", "O", "U", "DAT"]
      ∧ [copyflags.D ||| copyflags.A, copyflags.D ||| copyflags.T,
          copyflags.D ||| copyflags.X, copyflags.D ||| copyflags.S,
          copyflags.D ||| copyflags.O, copyflags.D ||| copyflags.U].map
            copyflags.CopyFlags.String
          = ["DA", "DT", "DX", "DS", "DO", "DU"]
      ∧ copyflags.CopyFlags.String 0 = "" := by
  refine ⟨?_, by decide, by decide, by decide⟩
  intro f hf
  have hlt : f < 128 := by
    have hle := @Nat.and_le_right f (copyflags.D ||| copyflags.A ||| copyflags.T
      ||| copyflags.X ||| copyflags.S ||| copyflags.O ||| copyflags.U)
    rw [hf] at hle
    exact Nat.lt_of_le_of_lt hle (by decide)
  refine ⟨?_, copyflags_lettersToBits_lt f hlt⟩
  have h0 := flags.Has_two_pow f 0
  have h1 := flags.Has_two_pow f 1
  have h2 := flags.Has_two_pow f 2
  have h3 := flags.Has_two_pow f 3
  have h4 := flags.Has_two_pow f 4
  have h5 := flags.Has_two_pow f 5
  have h6 := flags.Has_two_pow f 6
  simp only [copyflags.CopyFlags.String, copyflags.D, copyflags.A, copyflags.T, copyflags.X,
    copyflags.S, copyflags.O, copyflags.U, Nat.one_shiftLeft, h0, h1, h2, h3,
    h4, h5, h6, ite_append_letter,
    renderInOrder, copyflags.letters, String.join, List.map_cons, List.map_nil,
    List.foldl_cons, List.foldl_nil, decide_eq_true_eq]

/-- C8, at a concrete input: `D|A|T` lies within the declared bits and renders
to the letters of its set bits in declared order, `"DAT"`. -/
theorem C8_CopyFlags_String_witness :
    (7 &&& (copyflags.D ||| copyflags.A ||| copyflags.T ||| copyflags.X
            ||| copyflags.S ||| copyflags.O ||| copyflags.U) = 7)
      ∧ (copyflags.CopyFlags.String 7 = renderInOrder copyflags.letters 7
          ∧ lettersToBits copyflags.letters 7 = 7)
      ∧ renderInOrder copyflags.letters 7 = "DAT" :=
  ⟨by decide, C8_CopyFlags_String.1 7 (by decide), by decide⟩

/-- C9: for every `DCopyFlags` value within the declared bits D, A, T, E, X,
`String()` is the concatenation, in declared order, of the letters of exactly
the set bits; each single flag renders to its letter, `Default` to `"DA"`, `D`
with T, E or X to `"DT"`, `"DE"`, `"DX"`, and 0 to the empty string. -/
theorem C9_DCopyFlags_String :
    (∀ f : dcopyflags.DCopyFlags,
        f &&& (dcopyflags.D ||| dcopyflags.A ||| dcopyflags.T ||| dcopyflags.E
            ||| dcopyflags.X) = f →
          dcopyflags.DCopyFlags.String f = renderInOrder dcopyflags.letters f
            ∧ lettersToBits dcopyflags.letters f = f)
      ∧ [dcopyflags.D, dcopyflags.A, dcopyflags.T, dcopyflags.E, dcopyflags.X,
          dcopyflags.Default].map dcopyflags.DCopyFlags.String
          = ["D", "A", "T", "E", "X", "DA"]
      ∧ [dcopyflags.D ||| dcopyflags.A, dcopyflags.D ||| dcopyflags.T,
          dcopyflags.D ||| dcopyflags.E, dcopyflags.D ||| dcopyflags.X].map
            dcopyflags.DCopyFlags.String
          = ["DA", "DT", "DE", "DX"]
      ∧ dcopyflags.DCopyFlags.String 0 = "" := by
  refine ⟨?_, by decide, by decide, by decide⟩
  intro f hf
  have hlt : f < 32 := by
    have hle := @Nat.and_le_right f (dcopyflags.D ||| dcopyflags.A ||| dcopyflags.T
      ||| dcopyflags.E ||| dcopyflags.X)
    rw [hf] at hle
    exact Nat.lt_of_le_of_lt hle (by decide)
  refine ⟨?_, dcopyflags_lettersToBits_lt f hlt⟩
  have h0 := flags.Has_two_pow f 0
  have h1 := flags.Has_two_pow f 1
  have h2 := flags.Has_two_pow f 2
  have h3 := flags.Has_two_pow f 3
  have h4 := flags.Has_two_pow f 4
  simp only [dcopyflags.DCopyFlags.String, dcopyflags.D, dcopyflags.A, dcopyflags.T,
    dcopyflags.E, dcopyflags.X, Nat.one_shiftLeft, h0, h1, h2, h3, h4, ite_append_letter,
    renderInOrder, dcopyflags.letters, String.join, List.map_cons, List.map_nil,
    List.foldl_cons, List.foldl_nil, decide_eq_true_eq]

/-- C9, at a concrete input: `D|E` lies within the declared bits and renders to
the letters of its set bits in declared order, `"DE"`. -/
theorem C9_DCopyFlags_String_witness :
    (9 &&& (dcopyflags.D ||| dcopyflags.A ||| dcopyflags.T ||| dcopyflags.E
            ||| dcopyflags.X) = 9)
      ∧ (dcopyflags.DCopyFlags.String 9 = renderInOrder dcopyflags.letters 9
          ∧ lettersToBits dcopyflags.letters 9 = 9)
      ∧ renderInOrder dcopyflags.letters 9 = "DE" :=
  ⟨by decide, C9_DCopyFlags_String.1 9 (by decide), by decide⟩

/-- C10: the nine `AFlags` bits R, A, S, H, C, N, E, T, O have the values
1, 2, 4, ..., 256, and for every value within them `String()` is the
concatenation, in declared order, of the letters of exactly the set bits; all
nine bits render `"RASHCNETO"` and 0 renders the empty string. -/
theorem C10_AFlags_String :
    (∀ f : aflags.AFlags,
        f &&& (aflags.R ||| aflags.A ||| aflags.S ||| aflags.H ||| aflags.C
            ||| aflags.N ||| aflags.E ||| aflags.T ||| aflags.O) = f →
          aflags.AFlags.String f = renderInOrder aflags.letters f
            ∧ lettersToBits aflags.letters f = f)
      ∧ [aflags.R, aflags.A, aflags.S, aflags.H, aflags.C, aflags.N, aflags.E, aflags.T,
          aflags.O] = [1, 2, 4, 8, 16, 32, 64, 128, 256]
      ∧ aflags.AFlags.String (aflags.R ||| aflags.A ||| aflags.S ||| aflags.H ||| aflags.C
            ||| aflags.N ||| aflags.E ||| aflags.T ||| aflags.O) = "RASHCNETO"
      ∧ aflags.AFlags.String 0 = "" := by
  refine ⟨?_, by decide, by decide, by decide⟩
  intro f hf
  have hlt : f < 512 := by
    have hle := @Nat.and_le_right f (aflags.R ||| aflags.A ||| aflags.S ||| aflags.H
      ||| aflags.C ||| aflags.N ||| aflags.E ||| aflags.T ||| aflags.O)
    rw [hf] at hle
    exact Nat.lt_of_le_of_lt hle (by decide)
  refine ⟨?_, aflags_lettersToBits_lt f hlt⟩
  have h0 := flags.Has_two_pow f 0
  have h1 := flags.Has_two_pow f 1
  have h2 := flags.Has_two_pow f 2
  have h3 := flags.Has_two_pow f 3
  have h4 := flags.Has_two_pow f 4
  have h5 := flags.Has_two_pow f 5
  have h6 := flags.Has_two_pow f 6
  have h7 := flags.Has_two_pow f 7
  have h8 := flags.Has_two_pow f 8
  simp only [aflags.AFlags.String, aflags.R, aflags.A, aflags.S, aflags.H, aflags.C,
    aflags.N, aflags.E, aflags.T, aflags.O, Nat.one_shiftLeft, h0, h1, h2, h3, h4, h5, h6,
    h7, h8, ite_append_letter, renderInOrder, aflags.letters, String.join, List.map_cons,
    List.map_nil, List.foldl_cons, List.foldl_nil, decide_eq_true_eq]

/-- C10, at a concrete input: `R|H|O` lies within the declared bits and renders
to the letters of its set bits in declared order, `"RHO"`. -/
theorem C10_AFlags_String_witness :
    (265 &&& (aflags.R ||| aflags.A ||| aflags.S ||| aflags.H ||| aflags.C
            ||| aflags.N ||| aflags.E ||| aflags.T ||| aflags.O) = 265)
      ∧ (aflags.AFlags.String 265 = renderInOrder aflags.letters 265
          ∧ lettersToBits aflags.letters 265 = 265)
      ∧ renderInOrder aflags.letters 265 = "RHO" :=
  ⟨by decide, C10_AFlags_String.1 265 (by decide), by decide⟩

/-! ## Unit letters and exit codes -/

/-- C11, as stated, fails for `UnitFlags`: the value zero renders as `"g"`, not
as the empty string. -/
theorem C11_counterexample_UnitFlags_zero :
    unitflags.UnitFlags.String 0 = "g" ∧ unitflags.UnitFlags.String 0 ≠ "" := by
  decide

/-- C11, amended: for `AFlags`, `CopyFlags` and `DCopyFlags` the value zero
renders with `String()` as the empty string; for `UnitFlags` the value zero
renders as `"g"`. -/
theorem C11_zero_rendering :
    aflags.AFlags.String 0 = ""
      ∧ copyflags.CopyFlags.String 0 = ""
      ∧ dcopyflags.DCopyFlags.String 0 = ""
      ∧ unitflags.UnitFlags.String 0 = "g" := by
  decide

/-- C12: `UnitFlags.String` renders one letter for every value: `"k"` exactly
for `Kilobytes` (1), `"m"` exactly for `Megabytes` (2), and `"g"` for every
other value, which covers `Gigabytes` (4), 0, `Kilobytes|Megabytes` and values
with unrecognized bits. -/
theorem C12_UnitFlags_String :
    (∀ c : unitflags.UnitFlags,
        (unitflags.UnitFlags.String c = "k" ↔ c = unitflags.Kilobytes)
          ∧ (unitflags.UnitFlags.String c = "m" ↔ c = unitflags.Megabytes)
          ∧ (unitflags.UnitFlags.String c = "g"
              ↔ (c ≠ unitflags.Kilobytes ∧ c ≠ unitflags.Megabytes))
          ∧ (unitflags.UnitFlags.String c).length = 1)
      ∧ [unitflags.Kilobytes, unitflags.Megabytes, unitflags.Gigabytes] = [1, 2, 4]
      ∧ [unitflags.Gigabytes, 0, unitflags.Kilobytes ||| unitflags.Megabytes, 8, 0x8000,
          0xFFFF].map unitflags.UnitFlags.String = ["g", "g", "g", "g", "g", "g"] := by
  refine ⟨?_, by decide, by decide⟩
  intro c
  have hkm : unitflags.Kilobytes ≠ unitflags.Megabytes := by decide
  unfold unitflags.UnitFlags.String
  by_cases hk : c = unitflags.Kilobytes
  · subst hk
    simp [hkm]
    decide
  · by_cases hm : c = unitflags.Megabytes
    · subst hm
      simp [hk]
      decide
    · simp [hk, hm]
      decide

/-- C13: the exit-code constants have the values 0, 1, 2, 3, 5, 6, 7, 8;
`ExitCode.String` returns the fixed description of each of them and
`"Unknown exit code"` for every other integer, among them 4, negative values
and values above 8. -/
theorem C13_ExitCode_String :
    [AlreadyExist, AllFilesCopied, AdditionalFilesOnDest, SomeFilesCopied,
        SomeFilesMismatched, AdditionalAndMismatchedFiles,
        FilesCopiedMismatchedAndAdditional, SeveralFilesDidntCopy]
        = [0, 1, 2, 3, 5, 6, 7, 8]
      ∧ ExitCode.String 0 = "No files were copied. No failure was encountered. No files were mismatched. The files already exist in the destination directory; therefore, the copy operation was skipped."
      ∧ ExitCode.String 1 = "All files were copied successfully."
      ∧ ExitCode.String 2 = "There are some additional files in the destination directory that aren't present in the source directory. No files were copied."
      ∧ ExitCode.String 3 = "Some files were copied. Additional files were present. No failure was encountered."
      ∧ ExitCode.String 5 = "Some files were copied. Some files were mismatched. No failure was encountered."
      ∧ ExitCode.String 6 = "Additional files and mismatched files exist. No files were copied and no failures were encountered meaning that the files already exist in the destination directory."
      ∧ ExitCode.String 7 = "Files were copied, a file mismatch was present, and additional files were present."
      ∧ ExitCode.String 8 = "Several files didn't copy."
      ∧ (∀ e : ExitCode, e ∉ [0, 1, 2, 3, 5, 6, 7, 8] →
          ExitCode.String e = "Unknown exit code")
      ∧ [4, -1, 9, 16].map ExitCode.String
          = ["Unknown exit code", "Unknown exit code", "Unknown exit code",
             "Unknown exit code"] := by
  refine ⟨by decide, rfl, rfl, rfl, rfl, rfl, rfl, rfl, rfl, ?_, by decide⟩
  intro e he
  simp only [List.mem_cons, List.mem_singleton, List.mem_nil_iff, or_false, not_or] at he
  obtain ⟨h0, h1, h2, h3, h5, h6, h7, h8⟩ := he
  simp [ExitCode.String, AlreadyExist, AllFilesCopied, AdditionalFilesOnDest, SomeFilesCopied,
    SomeFilesMismatched, AdditionalAndMismatchedFiles, FilesCopiedMismatchedAndAdditional,
    SeveralFilesDidntCopy, h0, h1, h2, h3, h5, h6, h7, h8]

/-- C13, at a concrete input: the unused code 4 is outside the table and
renders as `"Unknown exit code"`. -/
theorem C13_ExitCode_String_witness :
    (4 : ExitCode) ∉ ([0, 1, 2, 3, 5, 6, 7, 8] : List ExitCode)
      ∧ ExitCode.String 4 = "Unknown exit code" :=
  ⟨by decide, C13_ExitCode_String.2.2.2.2.2.2.2.2.2.1 4 (by decide)⟩

/-! ## Bit-flag primitives -/

theorem flags.Clear_testBit (f m i : Nat) :
    (flags.Clear f m).testBit i = (f.testBit i && (decide (i < 16) && !m.testBit i)) := by
  have hx : m % 2 ^ 16 < 2 ^ 16 := Nat.mod_lt _ (by decide)
  have hsub : 2 ^ 16 - 1 - m % 2 ^ 16 = 2 ^ 16 - (m % 2 ^ 16 + 1) := by omega
  have hlt : 2 ^ 16 - (m % 2 ^ 16 + 1) < 2 ^ 16 := by omega
  rw [flags.Clear, hsub, Nat.mod_eq_of_lt hlt, Nat.testBit_and,
    Nat.testBit_two_pow_sub_succ hx, Nat.testBit_mod_two_pow]
  cases f.testBit i <;> cases m.testBit i <;> cases decide (i < 16) <;> rfl

theorem not16_testBit (m i : Nat) :
    (not16 m).testBit i = (m.testBit i != decide (i < 16)) := by
  have h : (0xFFFF : Nat) = 2 ^ 16 - 1 := by decide
  rw [not16, h, Nat.testBit_xor, Nat.testBit_two_pow_sub_one]

theorem testBit_eq_false_of_lt16 {f i : Nat} (hf : f < 2 ^ 16) (hi : ¬ i < 16) :
    f.testBit i = false :=
  Nat.testBit_lt_two_pow (Nat.lt_of_lt_of_le hf (Nat.pow_le_pow_right (by decide) (by omega)))

theorem flags.Has_eq_false_iff (f m : Nat) : flags.Has f m = false ↔ f &&& m = 0 := by
  simp [flags.Has]

theorem flags.Has_eq_true_iff (f m : Nat) : flags.Has f m = true ↔ f &&& m ≠ 0 := by
  simp [flags.Has]

/-- C14: for 16-bit values `f` and `m`, `Set` leaves `f OR m`, keeps every bit
of `f` and makes `Has` true of a non-zero mask; `Clear` leaves `f AND NOT m`
with the complement taken in 16 bits, makes `Has` false and keeps every bit of
`f` outside `m`; both are idempotent, and both results are 16-bit values. -/
theorem C14_Set_Clear (f m : Nat) (hf : f < 2 ^ 16) (hm : m < 2 ^ 16) :
    (∀ i, (flags.Set f m).testBit i = (f.testBit i || m.testBit i))
      ∧ (∀ i, f.testBit i = true → (flags.Set f m).testBit i = true)
      ∧ (m ≠ 0 → flags.Has (flags.Set f m) m = true)
      ∧ flags.Clear f m = f &&& not16 m
      ∧ (∀ i, (flags.Clear f m).testBit i = (f.testBit i && !m.testBit i))
      ∧ flags.Has (flags.Clear f m) m = false
      ∧ (∀ i, m.testBit i = false → (flags.Clear f m).testBit i = f.testBit i)
      ∧ flags.Set (flags.Set f m) m = flags.Set f m
      ∧ flags.Clear (flags.Clear f m) m = flags.Clear f m
      ∧ flags.Set f m < 2 ^ 16
      ∧ flags.Clear f m < 2 ^ 16 := by
  have hclr : ∀ i, (flags.Clear f m).testBit i = (f.testBit i && !m.testBit i) := by
    intro i
    rw [flags.Clear_testBit]
    by_cases hi : i < 16
    · simp [hi]
    · simp [hi, testBit_eq_false_of_lt16 hf hi]
  refine ⟨?_, ?_, ?_, ?_, hclr, ?_, ?_, ?_, ?_, ?_, ?_⟩
  · intro i
    simp [flags.Set]
  · intro i hi
    simp [flags.Set, hi]
  · intro hm0
    rw [flags.Has_eq_true_iff]
    have habs : (flags.Set f m) &&& m = m := by
      apply Nat.eq_of_testBit_eq
      intro i
      simp only [flags.Set, Nat.testBit_and, Nat.testBit_or]
      cases f.testBit i <;> cases m.testBit i <;> rfl
    rw [habs]
    exact hm0
  · apply Nat.eq_of_testBit_eq
    intro i
    rw [flags.Clear_testBit, Nat.testBit_and, not16_testBit]
    by_cases hi : i < 16
    · simp [hi]
    · simp [hi, testBit_eq_false_of_lt16 hm hi]
  · rw [flags.Has_eq_false_iff]
    apply Nat.eq_of_testBit_eq
    intro i
    rw [Nat.testBit_and, hclr, Nat.zero_testBit]
    cases f.testBit i <;> cases m.testBit i <;> rfl
  · intro i hi
    rw [hclr, hi]
    simp
  · apply Nat.eq_of_testBit_eq
    intro i
    simp only [flags.Set, Nat.testBit_or]
    cases f.testBit i <;> cases m.testBit i <;> rfl
  · apply Nat.eq_of_testBit_eq
    intro i
    rw [flags.Clear_testBit, flags.Clear_testBit]
    cases f.testBit i <;> cases m.testBit i <;> cases decide (i < 16) <;> rfl
  · exact Nat.or_lt_two_pow hf hm
  · exact Nat.lt_of_le_of_lt Nat.and_le_left hf

/-- C14, at a concrete input: with `f = 0x0005` and `m = 0x0006`, `Set` gives
`0x0007` and `Clear` gives `0x0001`. -/
theorem C14_Set_Clear_witness :
    (5 < 2 ^ 16) ∧ (6 < 2 ^ 16) ∧ flags.Set 5 6 = 7 ∧ flags.Clear 5 6 = 1
      ∧ flags.Clear 5 6 = 5 &&& not16 6
      ∧ flags.Has (flags.Clear 5 6) 6 = false :=
  ⟨by decide, by decide, by decide, by decide,
    (C14_Set_Clear 5 6 (by decide) (by decide)).2.2.2.1,
    (C14_Set_Clear 5 6 (by decide) (by decide)).2.2.2.2.2.1⟩

/-- C15: for 16-bit values `f` and `m`, `Toggle` leaves `f XOR m`; toggling the
same mask twice restores `f`; when `f` and `m` share no bit `Toggle` equals
`Set`, and when every bit of `m` is set in `f` it equals `Clear`; for a
single-bit mask `Has` after the toggle is the negation of `Has` before. -/
theorem C15_Toggle (f m : Nat) (hf : f < 2 ^ 16) (hm : m < 2 ^ 16) :
    (∀ i, (flags.Toggle f m).testBit i = (f.testBit i != m.testBit i))
      ∧ flags.Toggle (flags.Toggle f m) m = f
      ∧ (f &&& m = 0 → flags.Toggle f m = flags.Set f m)
      ∧ (f &&& m = m → flags.Toggle f m = flags.Clear f m)
      ∧ (∀ k, k < 16 →
          flags.Has (flags.Toggle f (1 <<< k)) (1 <<< k) = !flags.Has f (1 <<< k))
      ∧ flags.Toggle f m < 2 ^ 16 := by
  refine ⟨?_, ?_, ?_, ?_, ?_, ?_⟩
  · intro i
    simp [flags.Toggle]
  · apply Nat.eq_of_testBit_eq
    intro i
    simp only [flags.Toggle, Nat.testBit_xor]
    cases f.testBit i <;> cases m.testBit i <;> rfl
  · intro h
    apply Nat.eq_of_testBit_eq
    intro i
    have hi := congrArg (fun x => x.testBit i) h
    simp only [Nat.testBit_and, Nat.zero_testBit] at hi
    simp only [flags.Toggle, flags.Set, Nat.testBit_xor, Nat.testBit_or]
    revert hi
    cases f.testBit i <;> cases m.testBit i <;> simp
  · intro h
    apply Nat.eq_of_testBit_eq
    intro i
    have hi := congrArg (fun x => x.testBit i) h
    simp only [Nat.testBit_and] at hi
    rw [flags.Clear_testBit]
    simp only [flags.Toggle, Nat.testBit_xor]
    by_cases h16 : i < 16
    · revert hi
      cases f.testBit i <;> cases m.testBit i <;> simp [h16]
    · simp [h16, testBit_eq_false_of_lt16 hf h16, testBit_eq_false_of_lt16 hm h16]
  · intro k _
    rw [Nat.one_shiftLeft, flags.Has_two_pow, flags.Has_two_pow, flags.Toggle,
      Nat.and_two_pow, Nat.and_two_pow, Nat.testBit_xor, Nat.testBit_two_pow_self]
    have hpos : 0 < 2 ^ k := Nat.two_pow_pos k
    cases f.testBit k
    · simp
      omega
    · simp
      omega
  · exact Nat.xor_lt_two_pow hf hm

/-- C15, at a concrete input: toggling `0x0006` in `0x0005` gives `0x0003`, and
toggling it again restores `0x0005`. -/
theorem C15_Toggle_witness :
    (5 < 2 ^ 16) ∧ (6 < 2 ^ 16) ∧ flags.Toggle 5 6 = 3
      ∧ flags.Toggle (flags.Toggle 5 6) 6 = 5 :=
  ⟨by decide, by decide, by decide, (C15_Toggle 5 6 (by decide) (by decide)).2.1⟩

/-! ## Pass-through, ordering of `/save`, and setters -/

theorem Robocopy_GetCommandArgs_layout (r : Robocopy) :
    r.GetCommandArgs =
      [r.source, r.destination, r.file]
        ++ attachedTokens CopyOptions.getCommandArgs r.copyOpt
        ++ attachedTokens CopyFileThrottlingOptions.getCommandArgs r.throttlingOpt
        ++ attachedTokens FileSelectionOptions.getCommandArgs r.fileslOpt
        ++ attachedTokens RetryOptions.getCommandArgs r.retryOpt
        ++ attachedTokens LoggingOptions.getCommandArgs r.loggingOpt
        ++ attachedTokens JobOptions.getCommandArgs r.jobOpt := by
  obtain ⟨s, d, f, co, th, fs, re, lo, jo, ec⟩ := r
  cases co <;> cases th <;> cases fs <;> cases re <;> cases lo <;> cases jo <;>
    simp [Robocopy.GetCommandArgs, attachedTokens]

theorem JobOptions_getCommandArgs_save_last (jopt : JobOptions) (h : jopt.Save ≠ "") :
    jopt.getCommandArgs
      = JobOptions.getCommandArgs { jopt with Save := "" } ++ ["/save:" ++ jopt.Save] := by
  simp [JobOptions.getCommandArgs, h]

/-- C17, as stated, fails: with the empty string as file pattern the third
token is the empty string, not `"*.*"`. -/
theorem C17_counterexample_empty_file_pattern :
    (NewRobocopy "C:\\source" "D:\\destination" "").GetCommandArgs
        = ["C:\\source", "D:\\destination", ""]
      ∧ (NewRobocopy "C:\\source" "D:\\destination" "").GetCommandArgs[2]? ≠ some "*.*" := by
  decide

/-- C17, amended: the file pattern is passed through as given: the third token
of `GetCommandArgs` is the `file` string of the descriptor, so for
`NewRobocopy(s, d, f)` it is `f`, and when `f` is the empty string the third
token is the empty string, the argument list being `[s, d, ""]`. -/
theorem C17_file_pattern_passed_through :
    (∀ r : Robocopy, r.GetCommandArgs[2]? = some r.file)
      ∧ (∀ s d f : String, (NewRobocopy s d f).GetCommandArgs[2]? = some f)
      ∧ (∀ s d : String, (NewRobocopy s d "").GetCommandArgs[2]? = some "")
      ∧ (∀ s d : String, (NewRobocopy s d "").GetCommandArgs = [s, d, ""]) := by
  refine ⟨?_, fun _ _ _ => rfl, fun _ _ => rfl, fun _ _ => rfl⟩
  intro r
  rw [Robocopy_GetCommandArgs_layout]
  simp [List.append_assoc]

/-- C18: for every descriptor with `JobOptions` attached and `Save` non-empty,
the last token is `/save:` followed by `Save`: the argument list is the
positional tokens, the tokens of the copy, throttling, file-selection, retry
and logging groups and the other job tokens, followed by that one token. -/
theorem C18_save_is_last (r : Robocopy) (jopt : JobOptions)
    (hjob : r.jobOpt = some jopt) (hsave : jopt.Save ≠ "") :
    r.GetCommandArgs.getLast? = some ("/save:" ++ jopt.Save)
      ∧ r.GetCommandArgs =
          ([r.source, r.destination, r.file]
            ++ attachedTokens CopyOptions.getCommandArgs r.copyOpt
            ++ attachedTokens CopyFileThrottlingOptions.getCommandArgs r.throttlingOpt
            ++ attachedTokens FileSelectionOptions.getCommandArgs r.fileslOpt
            ++ attachedTokens RetryOptions.getCommandArgs r.retryOpt
            ++ attachedTokens LoggingOptions.getCommandArgs r.loggingOpt
            ++ JobOptions.getCommandArgs { jopt with Save := "" })
          ++ ["/save:" ++ jopt.Save] := by
  have hl : r.GetCommandArgs =
      ([r.source, r.destination, r.file]
        ++ attachedTokens CopyOptions.getCommandArgs r.copyOpt
        ++ attachedTokens CopyFileThrottlingOptions.getCommandArgs r.throttlingOpt
        ++ attachedTokens FileSelectionOptions.getCommandArgs r.fileslOpt
        ++ attachedTokens RetryOptions.getCommandArgs r.retryOpt
        ++ attachedTokens LoggingOptions.getCommandArgs r.loggingOpt
        ++ JobOptions.getCommandArgs { jopt with Save := "" })
      ++ ["/save:" ++ jopt.Save] := by
    rw [Robocopy_GetCommandArgs_layout, hjob]
    simp only [attachedTokens]
    rw [JobOptions_getCommandArgs_save_last jopt hsave]
    simp only [List.append_assoc]
  refine ⟨?_, hl⟩
  rw [hl, List.getLast?_concat]

/-- C18, at a concrete input: in the scenario of `TestCommandOne` the job group
has `Save = "MyJob"` and the last token is `/save:MyJob`. -/
theorem C18_save_is_last_witness :
    ("MyJob" : String) ≠ ""
      ∧ (((((NewRobocopy "C:\\source" "D:\\destination" "*.*").SetCopyOptions
            (some { E := true, Mt := 4, Copy := copyflags.Default })
          ).SetFileSelectionOptions (some { Xf := ["*.tmp", "*.bak"] })
          ).SetLoggingOptions (some { V := true })
          ).SetJobOptions (some { Save := "MyJob", Quit := true })).GetCommandArgs.getLast?
        = some "/save:MyJob" :=
  ⟨by decide,
    (C18_save_is_last _ { Save := "MyJob", Quit := true } rfl (by decide)).1⟩

/-- C19: each of the six setters replaces its own group reference and leaves
source, destination, file, the other five group references and the exit code
unchanged; setters of different groups commute, so the rendered arguments do
not depend on the order of attachment; a second call of a setter overrides the
first; and setting a group to `nil` detaches it, so it contributes no tokens. -/
theorem C19_setters_frame (r : Robocopy)
    (co co2 : Option CopyOptions) (th th2 : Option CopyFileThrottlingOptions)
    (fs fs2 : Option FileSelectionOptions) (re re2 : Option RetryOptions)
    (lo lo2 : Option LoggingOptions) (jo jo2 : Option JobOptions) :
    ((r.SetCopyOptions co).source = r.source
        ∧ (r.SetCopyOptions co).destination = r.destination
        ∧ (r.SetCopyOptions co).file = r.file
        ∧ (r.SetCopyOptions co).copyOpt = co
        ∧ (r.SetCopyOptions co).throttlingOpt = r.throttlingOpt
        ∧ (r.SetCopyOptions co).fileslOpt = r.fileslOpt
        ∧ (r.SetCopyOptions co).retryOpt = r.retryOpt
        ∧ (r.SetCopyOptions co).loggingOpt = r.loggingOpt
        ∧ (r.SetCopyOptions co).jobOpt = r.jobOpt
        ∧ (r.SetCopyOptions co).exitCode = r.exitCode)
      ∧ ((r.SetThrottlingOptions th).source = r.source
        ∧ (r.SetThrottlingOptions th).destination = r.destination
        ∧ (r.SetThrottlingOptions th).file = r.file
        ∧ (r.SetThrottlingOptions th).copyOpt = r.copyOpt
        ∧ (r.SetThrottlingOptions th).throttlingOpt = th
        ∧ (r.SetThrottlingOptions th).fileslOpt = r.fileslOpt
        ∧ (r.SetThrottlingOptions th).retryOpt = r.retryOpt
        ∧ (r.SetThrottlingOptions th).loggingOpt = r.loggingOpt
        ∧ (r.SetThrottlingOptions th).jobOpt = r.jobOpt
        ∧ (r.SetThrottlingOptions th).exitCode = r.exitCode)
      ∧ ((r.SetFileSelectionOptions fs).source = r.source
        ∧ (r.SetFileSelectionOptions fs).destination = r.destination
        ∧ (r.SetFileSelectionOptions fs).file = r.file
        ∧ (r.SetFileSelectionOptions fs).copyOpt = r.copyOpt
        ∧ (r.SetFileSelectionOptions fs).throttlingOpt = r.throttlingOpt
        ∧ (r.SetFileSelectionOptions fs).fileslOpt = fs
        ∧ (r.SetFileSelectionOptions fs).retryOpt = r.retryOpt
        ∧ (r.SetFileSelectionOptions fs).loggingOpt = r.loggingOpt
        ∧ (r.SetFileSelectionOptions fs).jobOpt = r.jobOpt
        ∧ (r.SetFileSelectionOptions fs).exitCode = r.exitCode)
      ∧ ((r.SetRetryOptions re).source = r.source
        ∧ (r.SetRetryOptions re).destination = r.destination
        ∧ (r.SetRetryOptions re).file = r.file
        ∧ (r.SetRetryOptions re).copyOpt = r.copyOpt
        ∧ (r.SetRetryOptions re).throttlingOpt = r.throttlingOpt
        ∧ (r.SetRetryOptions re).fileslOpt = r.fileslOpt
        ∧ (r.SetRetryOptions re).retryOpt = re
        ∧ (r.SetRetryOptions re).loggingOpt = r.loggingOpt
        ∧ (r.SetRetryOptions re).jobOpt = r.jobOpt
        ∧ (r.SetRetryOptions re).exitCode = r.exitCode)
      ∧ ((r.SetLoggingOptions lo).source = r.source
        ∧ (r.SetLoggingOptions lo).destination = r.destination
        ∧ (r.SetLoggingOptions lo).file = r.file
        ∧ (r.SetLoggingOptions lo).copyOpt = r.copyOpt
        ∧ (r.SetLoggingOptions lo).throttlingOpt = r.throttlingOpt
        ∧ (r.SetLoggingOptions lo).fileslOpt = r.fileslOpt
        ∧ (r.SetLoggingOptions lo).retryOpt = r.retryOpt
        ∧ (r.SetLoggingOptions lo).loggingOpt = lo
        ∧ (r.SetLoggingOptions lo).jobOpt = r.jobOpt
        ∧ (r.SetLoggingOptions lo).exitCode = r.exitCode)
      ∧ ((r.SetJobOptions jo).source = r.source
        ∧ (r.SetJobOptions jo).destination = r.destination
        ∧ (r.SetJobOptions jo).file = r.file
        ∧ (r.SetJobOptions jo).copyOpt = r.copyOpt
        ∧ (r.SetJobOptions jo).throttlingOpt = r.throttlingOpt
        ∧ (r.SetJobOptions jo).fileslOpt = r.fileslOpt
        ∧ (r.SetJobOptions jo).retryOpt = r.retryOpt
        ∧ (r.SetJobOptions jo).loggingOpt = r.loggingOpt
        ∧ (r.SetJobOptions jo).jobOpt = jo
        ∧ (r.SetJobOptions jo).exitCode = r.exitCode)
      ∧ (r.SetCopyOptions co).SetThrottlingOptions th = (r.SetThrottlingOptions th).SetCopyOptions co
      ∧ (r.SetCopyOptions co).SetFileSelectionOptions fs = (r.SetFileSelectionOptions fs).SetCopyOptions co
      ∧ (r.SetCopyOptions co).SetRetryOptions re = (r.SetRetryOptions re).SetCopyOptions co
      ∧ (r.SetCopyOptions co).SetLoggingOptions lo = (r.SetLoggingOptions lo).SetCopyOptions co
      ∧ (r.SetCopyOptions co).SetJobOptions jo = (r.SetJobOptions jo).SetCopyOptions co
      ∧ (r.SetThrottlingOptions th).SetFileSelectionOptions fs = (r.SetFileSelectionOptions fs).SetThrottlingOptions th
      ∧ (r.SetThrottlingOptions th).SetRetryOptions re = (r.SetRetryOptions re).SetThrottlingOptions th
      ∧ (r.SetThrottlingOptions th).SetLoggingOptions lo = (r.SetLoggingOptions lo).SetThrottlingOptions th
      ∧ (r.SetThrottlingOptions th).SetJobOptions jo = (r.SetJobOptions jo).SetThrottlingOptions th
      ∧ (r.SetFileSelectionOptions fs).SetRetryOptions re = (r.SetRetryOptions re).SetFileSelectionOptions fs
      ∧ (r.SetFileSelectionOptions fs).SetLoggingOptions lo = (r.SetLoggingOptions lo).SetFileSelectionOptions fs
      ∧ (r.SetFileSelectionOptions fs).SetJobOptions jo = (r.SetJobOptions jo).SetFileSelectionOptions fs
      ∧ (r.SetRetryOptions re).SetLoggingOptions lo = (r.SetLoggingOptions lo).SetRetryOptions re
      ∧ (r.SetRetryOptions re).SetJobOptions jo = (r.SetJobOptions jo).SetRetryOptions re
      ∧ (r.SetLoggingOptions lo).SetJobOptions jo = (r.SetJobOptions jo).SetLoggingOptions lo
      ∧ ((r.SetCopyOptions co).SetThrottlingOptions th).GetCommandArgs
        = ((r.SetThrottlingOptions th).SetCopyOptions co).GetCommandArgs
      ∧ ((r.SetCopyOptions co).SetFileSelectionOptions fs).GetCommandArgs
        = ((r.SetFileSelectionOptions fs).SetCopyOptions co).GetCommandArgs
      ∧ ((r.SetCopyOptions co).SetRetryOptions re).GetCommandArgs
        = ((r.SetRetryOptions re).SetCopyOptions co).GetCommandArgs
      ∧ ((r.SetCopyOptions co).SetLoggingOptions lo).GetCommandArgs
        = ((r.SetLoggingOptions lo).SetCopyOptions co).GetCommandArgs
      ∧ ((r.SetCopyOptions co).SetJobOptions jo).GetCommandArgs
        = ((r.SetJobOptions jo).SetCopyOptions co).GetCommandArgs
      ∧ ((r.SetThrottlingOptions th).SetFileSelectionOptions fs).GetCommandArgs
        = ((r.SetFileSelectionOptions fs).SetThrottlingOptions th).GetCommandArgs
      ∧ ((r.SetThrottlingOptions th).SetRetryOptions re).GetCommandArgs
        = ((r.SetRetryOptions re).SetThrottlingOptions th).GetCommandArgs
      ∧ ((r.SetThrottlingOptions th).SetLoggingOptions lo).GetCommandArgs
        = ((r.SetLoggingOptions lo).SetThrottlingOptions th).GetCommandArgs
      ∧ ((r.SetThrottlingOptions th).SetJobOptions jo).GetCommandArgs
        = ((r.SetJobOptions jo).SetThrottlingOptions th).GetCommandArgs
      ∧ ((r.SetFileSelectionOptions fs).SetRetryOptions re).GetCommandArgs
        = ((r.SetRetryOptions re).SetFileSelectionOptions fs).GetCommandArgs
      ∧ ((r.SetFileSelectionOptions fs).SetLoggingOptions lo).GetCommandArgs
        = ((r.SetLoggingOptions lo).SetFileSelectionOptions fs).GetCommandArgs
      ∧ ((r.SetFileSelectionOptions fs).SetJobOptions jo).GetCommandArgs
        = ((r.SetJobOptions jo).SetFileSelectionOptions fs).GetCommandArgs
      ∧ ((r.SetRetryOptions re).SetLoggingOptions lo).GetCommandArgs
        = ((r.SetLoggingOptions lo).SetRetryOptions re).GetCommandArgs
      ∧ ((r.SetRetryOptions re).SetJobOptions jo).GetCommandArgs
        = ((r.SetJobOptions jo).SetRetryOptions re).GetCommandArgs
      ∧ ((r.SetLoggingOptions lo).SetJobOptions jo).GetCommandArgs
        = ((r.SetJobOptions jo).SetLoggingOptions lo).GetCommandArgs
      ∧ (r.SetCopyOptions co).SetCopyOptions co2 = r.SetCopyOptions co2
      ∧ (r.SetThrottlingOptions th).SetThrottlingOptions th2 = r.SetThrottlingOptions th2
      ∧ (r.SetFileSelectionOptions fs).SetFileSelectionOptions fs2 = r.SetFileSelectionOptions fs2
      ∧ (r.SetRetryOptions re).SetRetryOptions re2 = r.SetRetryOptions re2
      ∧ (r.SetLoggingOptions lo).SetLoggingOptions lo2 = r.SetLoggingOptions lo2
      ∧ (r.SetJobOptions jo).SetJobOptions jo2 = r.SetJobOptions jo2
      ∧ ((r.SetCopyOptions co).SetCopyOptions none).GetCommandArgs
        = [r.source, r.destination, r.file]
          ++ attachedTokens CopyFileThrottlingOptions.getCommandArgs r.throttlingOpt
          ++ attachedTokens FileSelectionOptions.getCommandArgs r.fileslOpt
          ++ attachedTokens RetryOptions.getCommandArgs r.retryOpt
          ++ attachedTokens LoggingOptions.getCommandArgs r.loggingOpt
          ++ attachedTokens JobOptions.getCommandArgs r.jobOpt
      ∧ ((r.SetThrottlingOptions th).SetThrottlingOptions none).GetCommandArgs
        = [r.source, r.destination, r.file]
          ++ attachedTokens CopyOptions.getCommandArgs r.copyOpt
          ++ attachedTokens FileSelectionOptions.getCommandArgs r.fileslOpt
          ++ attachedTokens RetryOptions.getCommandArgs r.retryOpt
          ++ attachedTokens LoggingOptions.getCommandArgs r.loggingOpt
          ++ attachedTokens JobOptions.getCommandArgs r.jobOpt
      ∧ ((r.SetFileSelectionOptions fs).SetFileSelectionOptions none).GetCommandArgs
        = [r.source, r.destination, r.file]
          ++ attachedTokens CopyOptions.getCommandArgs r.copyOpt
          ++ attachedTokens CopyFileThrottlingOptions.getCommandArgs r.throttlingOpt
          ++ attachedTokens RetryOptions.getCommandArgs r.retryOpt
          ++ attachedTokens LoggingOptions.getCommandArgs r.loggingOpt
          ++ attachedTokens JobOptions.getCommandArgs r.jobOpt
      ∧ ((r.SetRetryOptions re).SetRetryOptions none).GetCommandArgs
        = [r.source, r.destination, r.file]
          ++ attachedTokens CopyOptions.getCommandArgs r.copyOpt
          ++ attachedTokens CopyFileThrottlingOptions.getCommandArgs r.throttlingOpt
          ++ attachedTokens FileSelectionOptions.getCommandArgs r.fileslOpt
          ++ attachedTokens LoggingOptions.getCommandArgs r.loggingOpt
          ++ attachedTokens JobOptions.getCommandArgs r.jobOpt
      ∧ ((r.SetLoggingOptions lo).SetLoggingOptions none).GetCommandArgs
        = [r.source, r.destination, r.file]
          ++ attachedTokens CopyOptions.getCommandArgs r.copyOpt
          ++ attachedTokens CopyFileThrottlingOptions.getCommandArgs r.throttlingOpt
          ++ attachedTokens FileSelectionOptions.getCommandArgs r.fileslOpt
          ++ attachedTokens RetryOptions.getCommandArgs r.retryOpt
          ++ attachedTokens JobOptions.getCommandArgs r.jobOpt
      ∧ ((r.SetJobOptions jo).SetJobOptions none).GetCommandArgs
        = [r.source, r.destination, r.file]
          ++ attachedTokens CopyOptions.getCommandArgs r.copyOpt
          ++ attachedTokens CopyFileThrottlingOptions.getCommandArgs r.throttlingOpt
          ++ attachedTokens FileSelectionOptions.getCommandArgs r.fileslOpt
          ++ attachedTokens RetryOptions.getCommandArgs r.retryOpt
          ++ attachedTokens LoggingOptions.getCommandArgs r.loggingOpt := by
  obtain ⟨s, d, f, co0, th0, fs0, re0, lo0, jo0, ec⟩ := r
  refine ⟨⟨rfl, rfl, rfl, rfl, rfl, rfl, rfl, rfl, rfl, rfl⟩,
    ⟨rfl, rfl, rfl, rfl, rfl, rfl, rfl, rfl, rfl, rfl⟩,
    ⟨rfl, rfl, rfl, rfl, rfl, rfl, rfl, rfl, rfl, rfl⟩,
    ⟨rfl, rfl, rfl, rfl, rfl, rfl, rfl, rfl, rfl, rfl⟩,
    ⟨rfl, rfl, rfl, rfl, rfl, rfl, rfl, rfl, rfl, rfl⟩,
    ⟨rfl, rfl, rfl, rfl, rfl, rfl, rfl, rfl, rfl, rfl⟩,
    rfl, rfl, rfl, rfl, rfl, rfl, rfl, rfl, rfl, rfl, rfl, rfl, rfl, rfl, rfl,
    rfl, rfl, rfl, rfl, rfl, rfl, rfl, rfl, rfl, rfl, rfl, rfl, rfl, rfl, rfl,
    rfl, rfl, rfl, rfl, rfl, rfl, ?_, ?_, ?_, ?_, ?_, ?_⟩
  all_goals
    rw [Robocopy_GetCommandArgs_layout]
    simp [Robocopy.SetCopyOptions, Robocopy.SetThrottlingOptions,
      Robocopy.SetFileSelectionOptions, Robocopy.SetRetryOptions, Robocopy.SetLoggingOptions,
      Robocopy.SetJobOptions, attachedTokens]

/-! ## Rendering as a round-trip target -/

set_option maxRecDepth 100000 in
theorem copyflags_String_roundtrip_lt :
    ∀ f, f < 128 →
      bitsOfLetters copyflags.letters (copyflags.CopyFlags.String f) = f
        ∧ (copyflags.CopyFlags.String f).data.Nodup
        ∧ (copyflags.CopyFlags.String f).length = setBitCount f := by
  decide

set_option maxRecDepth 100000 in
theorem dcopyflags_String_roundtrip_lt :
    ∀ f, f < 32 →
      bitsOfLetters dcopyflags.letters (dcopyflags.DCopyFlags.String f) = f
        ∧ (dcopyflags.DCopyFlags.String f).data.Nodup
        ∧ (dcopyflags.DCopyFlags.String f).length = setBitCount f := by
  decide

set_option maxRecDepth 100000 in
theorem aflags_String_roundtrip_lt :
    ∀ f, f < 512 →
      bitsOfLetters aflags.letters (aflags.AFlags.String f) = f
        ∧ (aflags.AFlags.String f).data.Nodup
        ∧ (aflags.AFlags.String f).length = setBitCount f := by
  decide

theorem lt_of_and_eq_self {f mask bound : Nat} (h : f &&& mask = f) (hb : mask < bound) :
    f < bound := by
  have hle := @Nat.and_le_right f mask
  rw [h] at hle
  exact Nat.lt_of_le_of_lt hle hb

/-- C20: for each of `AFlags`, `CopyFlags` and `DCopyFlags`, `String()` on the
values within the declared bits is injective, the rendered string has no
letter twice, its length is the number of set bits, and the value is recovered
from the letters. -/
theorem C20_rendering_round_trip :
    (∀ f g : aflags.AFlags,
        f &&& (aflags.R ||| aflags.A ||| aflags.S ||| aflags.H ||| aflags.C
            ||| aflags.N ||| aflags.E ||| aflags.T ||| aflags.O) = f →
        g &&& (aflags.R ||| aflags.A ||| aflags.S ||| aflags.H ||| aflags.C
            ||| aflags.N ||| aflags.E ||| aflags.T ||| aflags.O) = g →
        aflags.AFlags.String f = aflags.AFlags.String g → f = g)
      ∧ (∀ f : aflags.AFlags,
        f &&& (aflags.R ||| aflags.A ||| aflags.S ||| aflags.H ||| aflags.C
            ||| aflags.N ||| aflags.E ||| aflags.T ||| aflags.O) = f →
        (aflags.AFlags.String f).data.Nodup
          ∧ (aflags.AFlags.String f).length = setBitCount f
          ∧ bitsOfLetters aflags.letters (aflags.AFlags.String f) = f)
      ∧ (∀ f g : copyflags.CopyFlags,
        f &&& (copyflags.D ||| copyflags.A ||| copyflags.T ||| copyflags.X
            ||| copyflags.S ||| copyflags.O ||| copyflags.U) = f →
        g &&& (copyflags.D ||| copyflags.A ||| copyflags.T ||| copyflags.X
            ||| copyflags.S ||| copyflags.O ||| copyflags.U) = g →
        copyflags.CopyFlags.String f = copyflags.CopyFlags.String g → f = g)
      ∧ (∀ f : copyflags.CopyFlags,
        f &&& (copyflags.D ||| copyflags.A ||| copyflags.T ||| copyflags.X
            ||| copyflags.S ||| copyflags.O ||| copyflags.U) = f →
        (copyflags.CopyFlags.String f).data.Nodup
          ∧ (copyflags.CopyFlags.String f).length = setBitCount f
          ∧ bitsOfLetters copyflags.letters (copyflags.CopyFlags.String f) = f)
      ∧ (∀ f g : dcopyflags.DCopyFlags,
        f &&& (dcopyflags.D ||| dcopyflags.A ||| dcopyflags.T ||| dcopyflags.E
            ||| dcopyflags.X) = f →
        g &&& (dcopyflags.D ||| dcopyflags.A ||| dcopyflags.T ||| dcopyflags.E
            ||| dcopyflags.X) = g →
        dcopyflags.DCopyFlags.String f = dcopyflags.DCopyFlags.String g → f = g)
      ∧ (∀ f : dcopyflags.DCopyFlags,
        f &&& (dcopyflags.D ||| dcopyflags.A ||| dcopyflags.T ||| dcopyflags.E
            ||| dcopyflags.X) = f →
        (dcopyflags.DCopyFlags.String f).data.Nodup
          ∧ (dcopyflags.DCopyFlags.String f).length = setBitCount f
          ∧ bitsOfLetters dcopyflags.letters (dcopyflags.DCopyFlags.String f) = f) := by
  have ha : ∀ f : Nat,
      f &&& (aflags.R ||| aflags.A ||| aflags.S ||| aflags.H ||| aflags.C
        ||| aflags.N ||| aflags.E ||| aflags.T ||| aflags.O) = f → f < 512 :=
    fun f h => lt_of_and_eq_self h (by decide)
  have hc : ∀ f : Nat,
      f &&& (copyflags.D ||| copyflags.A ||| copyflags.T ||| copyflags.X
        ||| copyflags.S ||| copyflags.O ||| copyflags.U) = f → f < 128 :=
    fun f h => lt_of_and_eq_self h (by decide)
  have hd : ∀ f : Nat,
      f &&& (dcopyflags.D ||| dcopyflags.A ||| dcopyflags.T ||| dcopyflags.E
        ||| dcopyflags.X) = f → f < 32 :=
    fun f h => lt_of_and_eq_self h (by decide)
  refine ⟨?_, ?_, ?_, ?_, ?_, ?_⟩
  · intro f g hf hg h
    rw [← (aflags_String_roundtrip_lt f (ha f hf)).1,
      ← (aflags_String_roundtrip_lt g (ha g hg)).1, h]
  · intro f hf
    obtain ⟨h1, h2, h3⟩ := aflags_String_roundtrip_lt f (ha f hf)
    exact ⟨h2, h3, h1⟩
  · intro f g hf hg h
    rw [← (copyflags_String_roundtrip_lt f (hc f hf)).1,
      ← (copyflags_String_roundtrip_lt g (hc g hg)).1, h]
  · intro f hf
    obtain ⟨h1, h2, h3⟩ := copyflags_String_roundtrip_lt f (hc f hf)
    exact ⟨h2, h3, h1⟩
  · intro f g hf hg h
    rw [← (dcopyflags_String_roundtrip_lt f (hd f hf)).1,
      ← (dcopyflags_String_roundtrip_lt g (hd g hg)).1, h]
  · intro f hf
    obtain ⟨h1, h2, h3⟩ := dcopyflags_String_roundtrip_lt f (hd f hf)
    exact ⟨h2, h3, h1⟩

/-- C20, at a concrete input: `R|H|O` of `AFlags` lies within the declared
bits; its rendering `"RHO"` has three distinct letters for its three set bits,
and the letters give back the value. -/
theorem C20_rendering_round_trip_witness :
    (265 &&& (aflags.R ||| aflags.A ||| aflags.S ||| aflags.H ||| aflags.C
            ||| aflags.N ||| aflags.E ||| aflags.T ||| aflags.O) = 265)
      ∧ aflags.AFlags.String 265 = "RHO"
      ∧ setBitCount 265 = 3
      ∧ ((aflags.AFlags.String 265).data.Nodup
          ∧ (aflags.AFlags.String 265).length = setBitCount 265
          ∧ bitsOfLetters aflags.letters (aflags.AFlags.String 265) = 265)
      ∧ (265 : Nat) = 265 :=
  ⟨by decide, by decide, by decide, C20_rendering_round_trip.2.1 265 (by decide),
    C20_rendering_round_trip.1 265 265 (by decide) (by decide) rfl⟩

/-! ## Unit fallback, undeclared bits, any-bit test, initial exit code -/

theorem endsWithUnitLetter_append_unit (body : String) (u : unitflags.UnitFlags) :
    endsWithUnitLetter (body ++ unitflags.UnitFlags.String u) = true := by
  have hk : ("k" : String).data = [] ++ ['k'] := rfl
  have hm : ("m" : String).data = [] ++ ['m'] := rfl
  have hg : ("g" : String).data = [] ++ ['g'] := rfl
  unfold unitflags.UnitFlags.String endsWithUnitLetter
  split
  · simp [String.data_append, hk]
  · split
    · simp [String.data_append, hm]
    · simp [String.data_append, hg]

/-- C21: a sized quantity with non-zero magnitude `n` and unit 0 is emitted with
the suffix `g`, in `Iomaxsize`, `Iorate`, `Threshold` and `LfsmSize` alike; and
every sized-quantity token ends in one of the letters `k`, `m`, `g`, so none
is a bare number. -/
theorem C21_unset_unit_renders_g :
    (∀ n : Int, n ≠ 0 →
        CopyFileThrottlingOptions.getCommandArgs { Iomaxsize := { First := n, Second := 0 } }
          = ["/iomaxsize:" ++ Itoa n ++ "g"])
      ∧ (∀ n : Int, n ≠ 0 →
        CopyFileThrottlingOptions.getCommandArgs { Iorate := { First := n, Second := 0 } }
          = ["/iorate:" ++ Itoa n ++ "g"])
      ∧ (∀ n : Int, n ≠ 0 →
        CopyFileThrottlingOptions.getCommandArgs { Threshold := { First := n, Second := 0 } }
          = ["/threshold:" ++ Itoa n ++ "g"])
      ∧ (∀ n : Int, n ≠ 0 →
        RetryOptions.getCommandArgs { LfsmSize := { First := n, Second := 0 } }
          = ["/lfsm:" ++ Itoa n ++ "g"])
      ∧ (∀ (cfto : CopyFileThrottlingOptions) (tok : String),
        tok ∈ cfto.getCommandArgs → endsWithUnitLetter tok = true)
      ∧ (∀ (ropt : RetryOptions) (tok : String),
        tok ∈ ropt.getCommandArgs → hasSwitch "/lfsm:" tok = true →
          endsWithUnitLetter tok = true) := by
  have hz : Pair.IsZero { First := 0, Second := 0 } = true := rfl
  have hnz : ∀ n : Int, n ≠ 0 → Pair.IsZero { First := n, Second := 0 } = false := by
    intro n hn
    simp [Pair.IsZero, hn]
  have hg : unitflags.UnitFlags.String 0 = "g" := by decide
  refine ⟨?_, ?_, ?_, ?_, ?_, ?_⟩
  · intro n hn
    simp [CopyFileThrottlingOptions.getCommandArgs, hnz n hn, hz, hg]
  · intro n hn
    simp [CopyFileThrottlingOptions.getCommandArgs, hnz n hn, hz, hg]
  · intro n hn
    simp [CopyFileThrottlingOptions.getCommandArgs, hnz n hn, hz, hg]
  · intro n hn
    simp [RetryOptions.getCommandArgs, hnz n hn, hz, hg]
  · intro cfto tok hmem
    rw [CopyFileThrottlingOptions_getCommandArgs_flatten] at hmem
    simp only [CopyFileThrottlingOptions.declaredOrder, List.map_cons, List.map_nil,
      List.flatten_cons, List.flatten_nil, List.mem_append, List.append_nil] at hmem
    rcases hmem with h | h | h
    all_goals
      split at h
      · rw [List.mem_singleton] at h
        rw [h]
        exact endsWithUnitLetter_append_unit _ _
      · simp at h
  · intro ropt tok hmem hsw
    have e7 : ∀ s : String, hasSwitch "/lfsm:" ("/r:" ++ s) = false := fun _ => rfl
    have e8 : ∀ s : String, hasSwitch "/lfsm:" ("/w:" ++ s) = false := fun _ => rfl
    have e9 : hasSwitch "/lfsm:" "/reg" = false ∧ hasSwitch "/lfsm:" "/tbd" = false
        ∧ hasSwitch "/lfsm:" "/lfsm" = false := by decide
    rw [RetryOptions_getCommandArgs_flatten] at hmem
    simp only [RetryOptions.declaredOrder, List.map_cons, List.map_nil,
      List.flatten_cons, List.flatten_nil, List.mem_append, List.append_nil] at hmem
    rcases hmem with h | h | h | h | h | h
    all_goals
      split at h
      · rw [List.mem_singleton] at h
        subst h
        first
          | exact endsWithUnitLetter_append_unit _ _
          | (simp [e7, e8, e9] at hsw)
      · simp at h

/-- C21, at a concrete input: `Iomaxsize = (64, 0)` serializes to
`["/iomaxsize:64g"]`. -/
theorem C21_unset_unit_renders_g_witness :
    (64 : Int) ≠ 0
      ∧ CopyFileThrottlingOptions.getCommandArgs { Iomaxsize := { First := 64, Second := 0 } }
          = ["/iomaxsize:64g"] :=
  ⟨by decide, C21_unset_unit_renders_g.1 64 (by decide)⟩

theorem flags.Has_and_mask (f mask bit : Nat) (h : mask &&& bit = bit) :
    flags.Has (f &&& mask) bit = flags.Has f bit := by
  simp only [flags.Has, Nat.and_assoc, h]

/-- C22: rendering ignores the bits outside the declared set: `String(f)` equals
`String(f AND 0x7F)` for `CopyFlags`, with `0x1F` for `DCopyFlags` and `0x1FF`
for `AFlags`; the serializer compares the whole value with 0, so a non-zero
value whose declared bits are all unset, such as `CopyOptions{Copy: 0x80}`,
is emitted as the switch with an empty value, `"/copy:"`. -/
theorem C22_undeclared_bits :
    (∀ f : copyflags.CopyFlags,
        copyflags.CopyFlags.String f = copyflags.CopyFlags.String (f &&& 0x7F))
      ∧ (∀ f : dcopyflags.DCopyFlags,
        dcopyflags.DCopyFlags.String f = dcopyflags.DCopyFlags.String (f &&& 0x1F))
      ∧ (∀ f : aflags.AFlags,
        aflags.AFlags.String f = aflags.AFlags.String (f &&& 0x1FF))
      ∧ (∀ f : copyflags.CopyFlags, f ≠ 0 →
        CopyOptions.getCommandArgs { Copy := f }
          = ["/copy:" ++ copyflags.CopyFlags.String (f &&& 0x7F)])
      ∧ (∀ f : copyflags.CopyFlags, f ≠ 0 → f &&& 0x7F = 0 →
        CopyOptions.getCommandArgs { Copy := f } = ["/copy:"])
      ∧ CopyOptions.getCommandArgs { Copy := 0x80 } = ["/copy:"]
      ∧ CopyOptions.getCommandArgs { Dcopy := 0x20 } = ["/dcopy:"]
      ∧ CopyOptions.getCommandArgs { APlus := 0x200 } = ["/a+:"]
      ∧ CopyOptions.getCommandArgs { AMinus := 0x200 } = ["/a-:"]
      ∧ CopyOptions.getCommandArgs { Copy := 0 } = [] := by
  have hc : ∀ f : copyflags.CopyFlags,
      copyflags.CopyFlags.String f = copyflags.CopyFlags.String (f &&& 0x7F) := by
    intro f
    simp only [copyflags.CopyFlags.String,
      flags.Has_and_mask f 0x7F copyflags.D (by decide),
      flags.Has_and_mask f 0x7F copyflags.A (by decide),
      flags.Has_and_mask f 0x7F copyflags.T (by decide),
      flags.Has_and_mask f 0x7F copyflags.X (by decide),
      flags.Has_and_mask f 0x7F copyflags.S (by decide),
      flags.Has_and_mask f 0x7F copyflags.O (by decide),
      flags.Has_and_mask f 0x7F copyflags.U (by decide)]
  have hcopy : ∀ f : copyflags.CopyFlags, f ≠ 0 →
      CopyOptions.getCommandArgs { Copy := f }
        = ["/copy:" ++ copyflags.CopyFlags.String (f &&& 0x7F)] := by
    intro f hf
    rw [← hc f]
    simp [CopyOptions.getCommandArgs, hf]
  refine ⟨hc, ?_, ?_, hcopy, ?_, by decide, by decide, by decide, by decide, by decide⟩
  · intro f
    simp only [dcopyflags.DCopyFlags.String,
      flags.Has_and_mask f 0x1F dcopyflags.D (by decide),
      flags.Has_and_mask f 0x1F dcopyflags.A (by decide),
      flags.Has_and_mask f 0x1F dcopyflags.T (by decide),
      flags.Has_and_mask f 0x1F dcopyflags.E (by decide),
      flags.Has_and_mask f 0x1F dcopyflags.X (by decide)]
  · intro f
    simp only [aflags.AFlags.String,
      flags.Has_and_mask f 0x1FF aflags.R (by decide),
      flags.Has_and_mask f 0x1FF aflags.A (by decide),
      flags.Has_and_mask f 0x1FF aflags.S (by decide),
      flags.Has_and_mask f 0x1FF aflags.H (by decide),
      flags.Has_and_mask f 0x1FF aflags.C (by decide),
      flags.Has_and_mask f 0x1FF aflags.N (by decide),
      flags.Has_and_mask f 0x1FF aflags.E (by decide),
      flags.Has_and_mask f 0x1FF aflags.T (by decide),
      flags.Has_and_mask f 0x1FF aflags.O (by decide)]
  · intro f hf h0
    rw [hcopy f hf, h0]
    decide

/-- C22, at a concrete input: `0x180` is non-zero and has no declared
`CopyFlags` bit, and `CopyOptions{Copy: 0x180}` serializes to `["/copy:"]`. -/
theorem C22_undeclared_bits_witness :
    (0x180 : Nat) ≠ 0 ∧ (0x180 &&& 0x7F = 0)
      ∧ CopyOptions.getCommandArgs { Copy := 0x180 } = ["/copy:"] :=
  ⟨by decide, by decide, C22_undeclared_bits.2.2.2.2.1 0x180 (by decide) (by decide)⟩

/-- C23: for a 16-bit `f` and any mask `m`, `Has(f, m)` is true exactly when `f` and `m`
have a set bit in common; so `Has(f, 0)` is false, also after `Set(f, 0)`, `Has`
is symmetric, and with a multi-bit mask it is true when only part of the mask
is set: `Has(D, Default)` is true for `CopyFlags` although `D` lacks bits of
`Default`. -/
theorem C23_Has_any_bit (f m : Nat) (hf : f < 2 ^ 16) :
    (flags.Has f m = true ↔ ∃ i, i < 16 ∧ f.testBit i = true ∧ m.testBit i = true)
      ∧ flags.Has f 0 = false
      ∧ flags.Has (flags.Set f 0) 0 = false
      ∧ flags.Has f m = flags.Has m f
      ∧ flags.Has copyflags.D copyflags.Default = true
      ∧ copyflags.D &&& copyflags.Default ≠ copyflags.Default := by
  refine ⟨?_, ?_, ?_, ?_, by decide, by decide⟩
  · rw [flags.Has_eq_true_iff]
    constructor
    · intro h
      obtain ⟨i, hi⟩ := Nat.ne_zero_implies_bit_true h
      rw [Nat.testBit_and, Bool.and_eq_true] at hi
      refine ⟨i, ?_, hi.1, hi.2⟩
      by_contra h16
      rw [testBit_eq_false_of_lt16 hf h16] at hi
      exact Bool.noConfusion hi.1
    · rintro ⟨i, _, h1, h2⟩ h0
      have hb : (f &&& m).testBit i = true := by
        rw [Nat.testBit_and, h1, h2]
        rfl
      rw [h0, Nat.zero_testBit] at hb
      exact Bool.noConfusion hb
  · simp [flags.Has]
  · simp [flags.Has]
  · simp only [flags.Has, Nat.and_comm]

/-- C23, at a concrete input: `D = 1` and `Default = 7` share bit 0, so
`Has(D, Default)` is true, and `Has` gives the same with the arguments swapped. -/
theorem C23_Has_any_bit_witness :
    (1 < 2 ^ 16)
      ∧ (flags.Has 1 7 = true ↔ ∃ i, i < 16 ∧ Nat.testBit 1 i = true ∧ Nat.testBit 7 i = true)
      ∧ flags.Has 1 7 = flags.Has 7 1 :=
  ⟨by decide, (C23_Has_any_bit 1 7 (by decide)).1,
    (C23_Has_any_bit 1 7 (by decide)).2.2.2.1⟩

/-- C24: a descriptor that has never been run reports `AlreadyExist`, the exit
code 0 with the "No files were copied" description; no setter changes the exit
code; and a run whose process ends with status 0 leaves the same exit code, so
the two cannot be told apart by it. -/
theorem C24_initial_exit_code :
    (∀ s d f : String, (NewRobocopy s d f).GetExitCode = AlreadyExist)
      ∧ AlreadyExist = 0
      ∧ ExitCode.String AlreadyExist = "No files were copied. No failure was encountered. No files were mismatched. The files already exist in the destination directory; therefore, the copy operation was skipped."
      ∧ (∀ (r : Robocopy) (co : Option CopyOptions) (th : Option CopyFileThrottlingOptions)
          (fs : Option FileSelectionOptions) (re : Option RetryOptions)
          (lo : Option LoggingOptions) (jo : Option JobOptions),
          (r.SetCopyOptions co).GetExitCode = r.GetExitCode
            ∧ (r.SetThrottlingOptions th).GetExitCode = r.GetExitCode
            ∧ (r.SetFileSelectionOptions fs).GetExitCode = r.GetExitCode
            ∧ (r.SetRetryOptions re).GetExitCode = r.GetExitCode
            ∧ (r.SetLoggingOptions lo).GetExitCode = r.GetExitCode
            ∧ (r.SetJobOptions jo).GetExitCode = r.GetExitCode)
      ∧ (∀ (s d f : String) (co : Option CopyOptions)
          (th : Option CopyFileThrottlingOptions) (fs : Option FileSelectionOptions)
          (re : Option RetryOptions) (lo : Option LoggingOptions) (jo : Option JobOptions),
          (((((((NewRobocopy s d f).SetCopyOptions co).SetThrottlingOptions th
            ).SetFileSelectionOptions fs).SetRetryOptions re).SetLoggingOptions lo
            ).SetJobOptions jo).GetExitCode = AlreadyExist)
      ∧ (∀ (r : Robocopy) (status : Int), (r.Run status).GetExitCode = status)
      ∧ (∀ (s d f : String) (r : Robocopy),
          (NewRobocopy s d f).GetExitCode = (r.Run 0).GetExitCode) := by
  refine ⟨fun _ _ _ => rfl, rfl, rfl, ?_, fun _ _ _ _ _ _ _ _ _ => rfl, fun _ _ => rfl,
    fun _ _ _ _ => rfl⟩
  intro r co th fs re lo jo
  exact ⟨rfl, rfl, rfl, rfl, rfl, rfl⟩
